import Mathlib

/-! # Dating-app frontend: the profile editor and the sign-in flow

A shallow embedding of `src/components/ProfileForm.jsx` and
`src/components/SignIn.jsx`.

* React state is an explicit record; every `setX(...)` call, `fetch`, toast,
  navigation, context write and storage write of a handler is recorded, in
  program order, as an `Effect` of the handler's trace.
* An `async` handler is a function of the outcome of the request it awaits:
  the trace holds what runs before the `await`, then what runs after it.
* The calls into the environment (`toast`, `navigate`, `setProfile`,
  `localStorage.setItem`, `onProfileUpdate`, `onClose`) return normally; the
  constant `API_URL` of `../config` is a parameter.
* The `name` of a change event is the `name` attribute of one of the inputs
  the component renders, and its `value` is a String.
* The JavaScript operations the handlers rely on (`String.prototype.trim`,
  truthiness, `isNaN`, `<`, `Math.floor`, array indexing, `x || ''`) are
  modelled after ECMA-262 on the values the components handle.
-/

namespace DatingApp

/-! ## ECMAScript numbers -/

/-- ECMAScript Number values: `NaN`, the two infinities, and the finite values
`(-1)^neg * m * 2^e` in sign and magnitude form (so that `-0` is a value).
Every IEEE-754 double has such a form with `m < 2^53` and `-1074 ≤ e`. -/
inductive JSNumber where
  | nan
  | inf (neg : Bool)
  | fin (neg : Bool) (m : Nat) (e : Int)
  deriving DecidableEq, Repr

/-- Halving `n` until it drops below two, at most `fuel` times, counting the
steps. -/
def log2Aux : Nat → Nat → Nat
  | 0, _ => 0
  | fuel + 1, n => if n < 2 then 0 else log2Aux fuel (n / 2) + 1

/-- The base-two logarithm of a positive natural number, rounded down. -/
def log2 (n : Nat) : Nat := log2Aux n n

/-- The index `floor (log2 (num / den))` of the binade of a positive
rational, from the bit lengths of numerator and denominator. -/
def binade (num den : Nat) : Int :=
  let l : Int := (log2 num : Int) - (log2 den : Int)
  if (if 0 ≤ l then den * 2 ^ l.toNat ≤ num else den ≤ num * 2 ^ (-l).toNat)
  then l else l - 1

/-- The Number value for the mathematical value `(-1)^neg * num / den`
(`den > 0`): IEEE-754 binary64 round-to-nearest, ties to even, with gradual
underflow and overflow to infinity. -/
def roundToDouble (neg : Bool) (num den : Nat) : JSNumber :=
  if num = 0 then .fin neg 0 0 else
  let p : Int := max (binade num den) (-1022) - 52
  let n : Nat := if 0 ≤ p then num else num * 2 ^ (-p).toNat
  let d : Nat := if 0 ≤ p then den * 2 ^ p.toNat else den
  let q : Nat := n / d
  let r : Nat := n % d
  let q1 : Nat := if d < 2 * r ∨ (2 * r = d ∧ q % 2 = 1) then q + 1 else q
  if 0 ≤ p ∧ 2 ^ 1024 ≤ q1 * 2 ^ p.toNat then .inf neg else .fin neg q1 p

namespace JSNumber

/-- The Number value of a natural number literal such as `18` or `3`. -/
def ofNat (n : Nat) : JSNumber := roundToDouble false n 1

/-- The result of `isNaN` on a Number. -/
def isNaN : JSNumber → Bool
  | .nan => true
  | _ => false

/-- ToBoolean on a Number: `NaN`, `+0` and `-0` are falsy. -/
def toBoolean : JSNumber → Bool
  | .nan => false
  | .inf _ => true
  | .fin _ m _ => m != 0

/-- Number::lessThan on two finite magnitudes `m * 2^e < n * 2^f`. -/
def magLt (m : Nat) (e : Int) (n : Nat) (f : Int) : Bool :=
  if e ≤ f then decide (m < n * 2 ^ (f - e).toNat)
  else decide (m * 2 ^ (e - f).toNat < n)

/-- The relational operator `<` on Numbers; a comparison with `NaN` is
undefined, which `<` turns into `false`. -/
def lt : JSNumber → JSNumber → Bool
  | .nan, _ => false
  | _, .nan => false
  | .inf a, .inf b => a && !b
  | .inf a, .fin _ _ _ => a
  | .fin _ _ _, .inf b => !b
  | .fin false m e, .fin false n f => magLt m e n f
  | .fin false _ _, .fin true _ _ => false
  | .fin true m _, .fin false n _ => m != 0 || n != 0
  | .fin true m e, .fin true n f => magLt n f m e

/-- Number::multiply, the `*` operator. -/
def mul : JSNumber → JSNumber → JSNumber
  | .nan, _ => .nan
  | _, .nan => .nan
  | .inf a, .inf b => .inf (a != b)
  | .inf a, .fin b n _ => if n = 0 then .nan else .inf (a != b)
  | .fin a m _, .inf b => if m = 0 then .nan else .inf (a != b)
  | .fin a m e, .fin b n f =>
    if 0 ≤ e + f then roundToDouble (a != b) (m * n * 2 ^ (e + f).toNat) 1
    else roundToDouble (a != b) (m * n) (2 ^ (-(e + f)).toNat)

/-- The function `Math.floor`. -/
def floor : JSNumber → JSNumber
  | .nan => .nan
  | .inf a => .inf a
  | .fin a m e =>
    if 0 ≤ e then .fin a m e
    else if a then .fin true ((m + 2 ^ (-e).toNat - 1) / 2 ^ (-e).toNat) 0
    else .fin false (m / 2 ^ (-e).toNat) 0

/-- The array index a Number denotes as a property key, if any: a
non-negative integer (`-0` converts to the key `"0"`). -/
def toIndex : JSNumber → Option Nat
  | .fin a m e =>
    if 0 ≤ e then (if a && m != 0 then none else some (m * 2 ^ e.toNat))
    else if m % 2 ^ (-e).toNat = 0 then
      (if a && m != 0 then none else some (m / 2 ^ (-e).toNat))
    else none
  | _ => none

/-- The representation is that of a double: at most 53 significant bits, no
exponent below the subnormal one, and a magnitude below `2^1024`. -/
def isDouble : JSNumber → Bool
  | .fin _ m e => decide (m < 2 ^ 53) && decide (-1074 ≤ e) &&
      (decide (e ≤ 0) || decide (m * 2 ^ e.toNat < 2 ^ 1024))
  | _ => true

end JSNumber

/-! ## ECMAScript strings -/

/-- The code points of WhiteSpace and LineTerminator in ECMA-262: what
`String.prototype.trim` strips and StringToNumber skips. -/
def isStrWhiteSpaceChar (c : Char) : Bool :=
  let n := c.toNat
  n == 0x09 || n == 0x0A || n == 0x0B || n == 0x0C || n == 0x0D || n == 0x20 ||
  n == 0xA0 || n == 0x1680 || (decide (0x2000 ≤ n) && decide (n ≤ 0x200A)) ||
  n == 0x2028 || n == 0x2029 || n == 0x202F || n == 0x205F || n == 0x3000 ||
  n == 0xFEFF

/-- The characters left by `trim`: leading and trailing white space removed. -/
def trimChars (cs : List Char) : List Char :=
  ((cs.dropWhile isStrWhiteSpaceChar).reverse.dropWhile isStrWhiteSpaceChar).reverse

/-- The method `String.prototype.trim`. -/
def trim (s : String) : String := String.mk (trimChars s.data)

/-- ToBoolean on a String: only the empty string is falsy. -/
def strToBoolean (s : String) : Bool := !s.data.isEmpty

/-- The value of a decimal digit character. -/
def decDigit (c : Char) : Option Nat :=
  if 48 ≤ c.toNat ∧ c.toNat ≤ 57 then some (c.toNat - 48) else none

/-- The value of a digit character in the given radix (2, 8 or 16). -/
def radixDigit (radix : Nat) (c : Char) : Option Nat :=
  let n := c.toNat
  let v : Option Nat :=
    if 48 ≤ n ∧ n ≤ 57 then some (n - 48)
    else if 97 ≤ n ∧ n ≤ 102 then some (n - 87)
    else if 65 ≤ n ∧ n ≤ 70 then some (n - 55)
    else none
  match v with
  | some d => if d < radix then some d else none
  | none => none

/-- The longest run of decimal digits at the head of the input, as their
values, and the rest of the input. -/
def spanDigits : List Char → List Nat × List Char
  | [] => ([], [])
  | c :: cs =>
    match decDigit c with
    | some d => let r := spanDigits cs; (d :: r.1, r.2)
    | none => ([], c :: cs)

/-- The number a digit sequence denotes in the given radix. -/
def digitsValue (radix : Nat) (ds : List Nat) : Nat :=
  ds.foldl (fun acc d => acc * radix + d) 0

/-- The digits of a NonDecimalIntegerLiteral body: every character a digit
of the radix, and at least one of them. -/
def radixDigits (radix : Nat) (cs : List Char) : Option (List Nat) :=
  if cs.isEmpty then none else cs.mapM (radixDigit radix)

/-- StrUnsignedDecimalLiteral other than `Infinity`: the digits `n` and the
decimal exponent `k` of the mathematical value `n * 10^k`, when the whole
input is such a literal. -/
def parseUnsignedDecimal (cs : List Char) : Option (Nat × Int) :=
  let ip := spanDigits cs
  let fp : List Nat × List Char :=
    match ip.2 with
    | '.' :: r => spanDigits r
    | r => ([], r)
  if ip.1.isEmpty && fp.1.isEmpty then none else
  let n := digitsValue 10 (ip.1 ++ fp.1)
  match fp.2 with
  | [] => some (n, -(fp.1.length : Int))
  | c :: r =>
    if c = 'e' ∨ c = 'E' then
      let sr : Bool × List Char :=
        match r with
        | '+' :: r2 => (false, r2)
        | '-' :: r2 => (true, r2)
        | r2 => (false, r2)
      let ed := spanDigits sr.2
      if ed.1.isEmpty || !ed.2.isEmpty then none
      else
        let x : Int := digitsValue 10 ed.1
        some (n, (if sr.1 then -x else x) - (fp.1.length : Int))
    else none

/-- The Number value of the mathematical value `(-1)^neg * n * 10^k`. -/
def decimalToNumber (neg : Bool) (n : Nat) (k : Int) : JSNumber :=
  if 0 ≤ k then roundToDouble neg (n * 10 ^ k.toNat) 1
  else roundToDouble neg n (10 ^ (-k).toNat)

/-- StrUnsignedDecimalLiteral with the sign already read. -/
def unsignedDecimalToNumber (neg : Bool) (cs : List Char) : JSNumber :=
  if cs = "Infinity".data then .inf neg
  else match parseUnsignedDecimal cs with
    | some (n, k) => decimalToNumber neg n k
    | none => .nan

/-- StrNumericLiteral: a signed decimal literal or an unsigned binary, octal
or hexadecimal integer literal; anything else is `NaN`. -/
def numericLiteralToNumber (cs : List Char) : JSNumber :=
  let nonDecimal (radix : Nat) (body : List Char) : JSNumber :=
    match radixDigits radix body with
    | some ds => roundToDouble false (digitsValue radix ds) 1
    | none => .nan
  match cs with
  | '0' :: 'x' :: body => nonDecimal 16 body
  | '0' :: 'X' :: body => nonDecimal 16 body
  | '0' :: 'o' :: body => nonDecimal 8 body
  | '0' :: 'O' :: body => nonDecimal 8 body
  | '0' :: 'b' :: body => nonDecimal 2 body
  | '0' :: 'B' :: body => nonDecimal 2 body
  | '+' :: rest => unsignedDecimalToNumber false rest
  | '-' :: rest => unsignedDecimalToNumber true rest
  | rest => unsignedDecimalToNumber false rest

/-- StringToNumber of ECMA-262: white space around the literal is skipped, the
empty string is `+0`, a string that is no numeric literal is `NaN`. The
mathematical value is rounded correctly (the licence to approximate literals
of more than twenty significant digits is not used). -/
def stringToNumber (s : String) : JSNumber :=
  let cs := trimChars s.data
  if cs.isEmpty then .fin false 0 0 else numericLiteralToNumber cs

/-- The values a form field holds: a String or a Number. -/
inductive JSValue where
  | str (s : String)
  | num (n : JSNumber)
  deriving DecidableEq, Repr

namespace JSValue

/-- ToBoolean. -/
def toBoolean : JSValue → Bool
  | .str s => strToBoolean s
  | .num n => n.toBoolean

/-- ToNumber. -/
def toNumber : JSValue → JSNumber
  | .str s => stringToNumber s
  | .num n => n

/-- The global function `isNaN`: ToNumber, then the test for `NaN`. -/
def isNaN (v : JSValue) : Bool := v.toNumber.isNaN

/-- The value of `v < n` for a Number `n`: both operands are converted with
ToNumber, since the right one is no String. -/
def ltNumber (v : JSValue) (n : JSNumber) : Bool := v.toNumber.lt n

/-- The expression `v || ''`. -/
def orEmpty (v : JSValue) : JSValue := if v.toBoolean then v else .str ""

end JSValue

/-! ## Requests, responses and notifications -/

/-- JSON values, as `response.json()` yields them. -/
inductive Json where
  | null
  | bool (b : Bool)
  | num (n : JSNumber)
  | str (s : String)
  | arr (items : List Json)
  | obj (members : List (String × Json))

namespace Json

/-- ToBoolean on a parsed JSON value. -/
def toBoolean : Json → Bool
  | .null => false
  | .bool b => b
  | .num n => n.toBoolean
  | .str s => strToBoolean s
  | .arr _ => true
  | .obj _ => true

/-- The result of `typeof` on a parsed JSON value. -/
def typeof : Json → String
  | .null => "object"
  | .bool _ => "boolean"
  | .num _ => "number"
  | .str _ => "string"
  | .arr _ => "object"
  | .obj _ => "object"

/-- The value is a JSON object, `{ ... }`. -/
def isObject : Json → Bool
  | .obj _ => true
  | _ => false

end Json

/-- The options object of a `useToast` call. -/
structure Toast where
  title : String
  description : String
  status : String
  duration : Nat
  isClosable : Bool
  deriving DecidableEq, Repr

/-- How the awaited request ends: `fetch` rejects with an error carrying
`message`, or resolves with a response of the given status whose `json()`
either rejects (a malformed body, with the parser's message) or yields the
parsed value. -/
inductive FetchResult where
  | failed (message : String)
  | response (status : Nat) (body : Except String Json)

/-- The getter `response.ok`: a status in the range 200-299. -/
def statusOk (status : Nat) : Bool := decide (200 ≤ status) && decide (status ≤ 299)

/-! ## Requests, shared by both components -/

/-- The state `formData` of the sign-in form (`SignIn.jsx`, lines 20-24). -/
structure SignInFormData where
  email : String
  password : String
  confirmPassword : String
  deriving DecidableEq, Repr

/-- The state `formData` of the profile editor (`ProfileForm.jsx`, lines
26-33); `age` is the only field that also holds Numbers. -/
structure ProfileDraft where
  name : String
  age : JSValue
  gender : String
  bio : String
  location : String
  lookingFor : String
  deriving DecidableEq, Repr

/-- The body of a request: `JSON.stringify` applied to the given object. The
serialisation is the library's; the model keeps its argument. -/
inductive RequestBody where
  | email (email : String)
  | signIn (formData : SignInFormData)
  | profile (formData : ProfileDraft)
  deriving DecidableEq, Repr

/-- The arguments of a `fetch` call. -/
structure Request where
  url : String
  method : String
  headers : List (String × String)
  body : RequestBody
  credentials : Option String
  mode : Option String
  deriving DecidableEq, Repr

/-! ## The profile editor (`ProfileForm.jsx`) -/

namespace ProfileForm


/-- The `name` attributes of the six inputs of the form. -/
inductive Field where
  | name | age | gender | bio | location | lookingFor
  deriving DecidableEq, Repr

/-- The property name a field is stored under. -/
def Field.key : Field → String
  | .name => "name"
  | .age => "age"
  | .gender => "gender"
  | .bio => "bio"
  | .location => "location"
  | .lookingFor => "lookingFor"

/-- The initial value of `formData` (lines 26-33). -/
def emptyDraft : ProfileDraft :=
  { name := "", age := .str "", gender := "", bio := "", location := "", lookingFor := "" }

/-- The value of a field of the draft. -/
def draftGet (d : ProfileDraft) : Field → JSValue
  | .name => .str d.name
  | .age => d.age
  | .gender => .str d.gender
  | .bio => .str d.bio
  | .location => .str d.location
  | .lookingFor => .str d.lookingFor

/-- The object `{...prev, [name]: value}` for the string `value` of an input. -/
def draftSet (d : ProfileDraft) (field : Field) (value : String) : ProfileDraft :=
  match field with
  | .name => { d with name := value }
  | .age => { d with age := .str value }
  | .gender => { d with gender := value }
  | .bio => { d with bio := value }
  | .location => { d with location := value }
  | .lookingFor => { d with lookingFor := value }

/-- The `errors` object: own properties in insertion order, each holding a
message or `undefined` (`none`). -/
abbrev ValidationErrors := List (Field × Option String)

namespace ValidationErrors

/-- The test `key in errors`: the object has the property. -/
def hasKey (o : ValidationErrors) (k : Field) : Bool := o.any (fun p => p.1 == k)

/-- The value of `errors[key]`: `undefined` when the property is absent or
holds `undefined`. -/
def get (o : ValidationErrors) (k : Field) : Option String :=
  match o.find? (fun p => p.1 == k) with
  | some p => p.2
  | none => none

/-- The assignment `errors[key] = v` (also `{...errors, [key]: v}`): an
existing property keeps its place, a new one is added last. -/
def set : ValidationErrors → Field → Option String → ValidationErrors
  | [], k, v => [(k, v)]
  | p :: o, k, v => if p.1 == k then (k, v) :: o else p :: set o k v

/-- The array `Object.keys(errors)`. -/
def keys (o : ValidationErrors) : List Field := o.map (fun p => p.1)

/-- ToBoolean on `errors[key]`: a non-empty message. -/
def truthy (o : ValidationErrors) (k : Field) : Bool :=
  match get o k with
  | some msg => strToBoolean msg
  | none => false

end ValidationErrors

/-- The component state of `ProfileForm`. -/
structure FormState where
  formData : ProfileDraft
  isSubmitting : Bool
  errors : ValidationErrors
  deriving DecidableEq, Repr

/-- The state of a freshly mounted `ProfileForm` (lines 26-35). -/
def FormState.init : FormState :=
  { formData := emptyDraft, isSubmitting := false, errors := [] }

/-- The function `validateForm` (lines 50-60): the object passed to
`setErrors` and the returned boolean. -/
def validateForm (formData : ProfileDraft) : ValidationErrors × Bool :=
  let newErrors : ValidationErrors := []
  let newErrors := if !strToBoolean (trim formData.name)
    then newErrors.set .name (some "Name is required") else newErrors
  let newErrors :=
    if !formData.age.toBoolean || formData.age.isNaN || formData.age.ltNumber (JSNumber.ofNat 18)
    then newErrors.set .age (some "Valid age is required") else newErrors
  let newErrors := if !strToBoolean formData.gender
    then newErrors.set .gender (some "Gender is required") else newErrors
  let newErrors := if !strToBoolean (trim formData.bio)
    then newErrors.set .bio (some "Bio is required") else newErrors
  let newErrors := if !strToBoolean (trim formData.location)
    then newErrors.set .location (some "Location is required") else newErrors
  let newErrors := if !strToBoolean formData.lookingFor
    then newErrors.set .lookingFor (some "Looking for is required") else newErrors
  (newErrors, newErrors.keys.length == 0)

/-- The function `handleChange` (lines 62-74) for the event of the input
`name` with the new `value`. -/
def handleChange (s : FormState) (field : Field) (value : String) : FormState :=
  let s1 := { s with formData := draftSet s.formData field value }
  if s.errors.truthy field then { s1 with errors := s1.errors.set field none } else s1


/-- The `initialData` prop when it is a profile: the text `id` interpolated
into the update URL and the six properties, `none` for one that is absent
(`undefined`). -/
structure InitialData where
  id : String
  name : Option String
  age : Option JSValue
  gender : Option String
  bio : Option String
  location : Option String
  lookingFor : Option String
  deriving DecidableEq, Repr

/-- The expression `x || ''` on a String property that may be absent. -/
def orEmptyStr : Option String → String
  | some s => if strToBoolean s then s else ""
  | none => ""

/-- The expression `x || ''` on a property that may be absent. -/
def orEmptyVal : Option JSValue → JSValue
  | some v => v.orEmpty
  | none => .str ""

/-- The body of the effect on `[initialData]` (lines 37-48), run after the
mount and after each render in which the `initialData` prop has changed. -/
def initialDataEffect (s : FormState) (initialData : Option InitialData) : FormState :=
  match initialData with
  | some d =>
    { s with formData :=
      { name := orEmptyStr d.name
        age := orEmptyVal d.age
        gender := orEmptyStr d.gender
        bio := orEmptyStr d.bio
        location := orEmptyStr d.location
        lookingFor := orEmptyStr d.lookingFor } }
  | none => s

/-- What a run of `handleSubmit` does, in program order. -/
inductive Effect where
  | setErrors (errors : ValidationErrors)
  | setIsSubmitting (b : Bool)
  | fetch (req : Request)
  | onProfileUpdate (data : Json)
  | onClose
  | toast (t : Toast)

/-- The state after a state setter; the other effects leave the state alone. -/
def applyEffect (s : FormState) : Effect → FormState
  | .setErrors e => { s with errors := e }
  | .setIsSubmitting b => { s with isSubmitting := b }
  | _ => s

/-- The state after a trace. -/
def applyEffects (s : FormState) (effs : List Effect) : FormState :=
  effs.foldl applyEffect s

/-- The request of `handleSubmit` (lines 82-95). -/
def submitRequest (API_URL : String) (initialData : Option InitialData)
    (formData : ProfileDraft) : Request :=
  { url := match initialData with
      | some d => API_URL ++ "/api/profiles/" ++ d.id
      | none => API_URL ++ "/api/profiles"
    method := match initialData with
      | some _ => "PUT"
      | none => "POST"
    headers := [("Content-Type", "application/json")]
    body := .profile formData
    credentials := some "include"
    mode := none }

/-- The toast of the `catch` block of `handleSubmit` (lines 113-119). -/
def errorToast (message : String) : Toast :=
  { title := "Error", description := message, status := "error", duration := 5000,
    isClosable := true }

/-- The toast after a saved profile (lines 105-111). -/
def successToast (initialData : Option InitialData) : Toast :=
  { title := "Success!"
    description := "Profile " ++ (match initialData with
      | some _ => "updated"
      | none => "created") ++ " successfully"
    status := "success", duration := 3000, isClosable := true }

/-- What `handleSubmit` does after the `await` of `fetch` (lines 97-122). -/
def submitSettle (initialData : Option InitialData) (result : FetchResult) : List Effect :=
  (match result with
    | .failed message => [.toast (errorToast message)]
    | .response status body =>
      if !statusOk status then [.toast (errorToast "Failed to save profile")]
      else match body with
        | .error message => [.toast (errorToast message)]
        | .ok data => [.onProfileUpdate data, .onClose, .toast (successToast initialData)])
  ++ [.setIsSubmitting false]

/-- The function `handleSubmit` (lines 76-123) on the draft `formData`, for
the given outcome of its request. -/
def handleSubmit (API_URL : String) (initialData : Option InitialData)
    (formData : ProfileDraft) (result : FetchResult) : List Effect :=
  let v := validateForm formData
  if !v.2 then [.setErrors v.1]
  else [.setErrors v.1, .setIsSubmitting true,
        .fetch (submitRequest API_URL initialData formData)]
    ++ submitSettle initialData result

/-- The requests of a trace. -/
def requests : List Effect → List Request
  | [] => []
  | .fetch r :: effs => r :: requests effs
  | _ :: effs => requests effs

/-- The effect is a call of one of the callbacks `onProfileUpdate`, `onClose`. -/
def isCallback : Effect → Bool
  | .onProfileUpdate _ => true
  | .onClose => true
  | _ => false

/-- The toasts of a trace. -/
def toasts : List Effect → List Toast
  | [] => []
  | .toast t :: effs => t :: toasts effs
  | _ :: effs => toasts effs

/-- The effect is a call of `setIsSubmitting`. -/
def isSetIsSubmitting : Effect → Bool
  | .setIsSubmitting _ => true
  | _ => false

/-! ### The editor between mount and unmount -/

/-- The `initialData` prop of a render: `null`, or a profile object together
with its identity, by which React compares the dependency of the effect. -/
abbrev InitialDataProp := Option (Nat × InitialData)

/-- The profile of the prop, if any. -/
def propData (prop : InitialDataProp) : Option InitialData := prop.map (fun p => p.2)

/-- The dependency `[initialData]` is unchanged between two renders
(`Object.is`): both `null`, or the same object. -/
def sameObject : InitialDataProp → InitialDataProp → Bool
  | none, none => true
  | some a, some b => a.1 == b.1
  | _, _ => false

/-- The mounted editor: its component state and the `initialData` prop of the
latest render. The component stays mounted between openings: `isOpen` only
shows and hides the modal. -/
structure Editor where
  form : FormState
  initialData : InitialDataProp
  deriving DecidableEq, Repr

/-- What happens to the mounted editor: the parent renders it (opens it) with
an `initialData` prop, an input changes, or the form is submitted and its
request ends with `result`. -/
inductive EditorEvent where
  | opened (prop : InitialDataProp)
  | change (field : Field) (value : String)
  | submit (result : FetchResult)

/-- The editor after the mount with the given prop: the initial state of lines
26-35, then the first run of the effect. -/
def mount (prop : InitialDataProp) : Editor :=
  { form := initialDataEffect FormState.init (propData prop), initialData := prop }

/-- One event on the mounted editor. A render runs the effect only when the
`initialData` prop has changed. -/
def editorStep (API_URL : String) (ed : Editor) : EditorEvent → Editor
  | .opened prop =>
    if sameObject ed.initialData prop then { ed with initialData := prop }
    else { form := initialDataEffect ed.form (propData prop), initialData := prop }
  | .change field value => { ed with form := handleChange ed.form field value }
  | .submit result =>
    let effs := handleSubmit API_URL (propData ed.initialData) ed.form.formData result
    { ed with form := applyEffects ed.form effs }

/-- The editor after the mount and a sequence of events. -/
def editorRun (API_URL : String) (prop : InitialDataProp) (evs : List EditorEvent) : Editor :=
  evs.foldl (editorStep API_URL) (mount prop)

/-- The event leaves the draft alone by design: an opening without initial
data, or a submit. -/
def keepsDraft : EditorEvent → Bool
  | .opened none => true
  | .submit _ => true
  | _ => false

/-- The draft the effect builds from a profile (lines 39-46). -/
def populated (d : InitialData) : ProfileDraft :=
  { name := orEmptyStr d.name
    age := orEmptyVal d.age
    gender := orEmptyStr d.gender
    bio := orEmptyStr d.bio
    location := orEmptyStr d.location
    lookingFor := orEmptyStr d.lookingFor }

end ProfileForm

/-! ## The sign-in flow (`SignIn.jsx`) -/

namespace SignIn

/-- The component state of `SignIn` (lines 20-27). -/
structure SignInState where
  formData : SignInFormData
  isNewAccount : Bool
  isLoading : Bool
  emailVerified : Bool
  deriving DecidableEq, Repr

/-- The state of a freshly mounted `SignIn`. -/
def SignInState.init : SignInState :=
  { formData := { email := "", password := "", confirmPassword := "" }
    isNewAccount := false, isLoading := false, emailVerified := false }

/-- The `name` attributes of the three inputs. -/
inductive Field where
  | email | password | confirmPassword
  deriving DecidableEq, Repr

/-- What a handler does, in program order. -/
inductive Effect where
  | setFormData (formData : SignInFormData)
  | setIsNewAccount (b : Bool)
  | setIsLoading (b : Bool)
  | setEmailVerified (b : Bool)
  | fetch (req : Request)
  | toast (t : Toast)
  | setProfile (data : Json)
  | localStorageSetItem (key : String) (stringified : Json)
  | navigate (path : String)

/-- The state after a state setter; the other effects leave the state alone. -/
def applyEffect (s : SignInState) : Effect → SignInState
  | .setFormData fd => { s with formData := fd }
  | .setIsNewAccount b => { s with isNewAccount := b }
  | .setIsLoading b => { s with isLoading := b }
  | .setEmailVerified b => { s with emailVerified := b }
  | _ => s

/-- The state after a trace. -/
def applyEffects (s : SignInState) (effs : List Effect) : SignInState :=
  effs.foldl applyEffect s

/-- The requests of a trace. -/
def requests : List Effect → List Request
  | [] => []
  | .fetch r :: effs => r :: requests effs
  | _ :: effs => requests effs

/-- The toasts of a trace. -/
def toasts : List Effect → List Toast
  | [] => []
  | .toast t :: effs => t :: toasts effs
  | _ :: effs => toasts effs

/-- The targets of the `navigate` calls of a trace. -/
def navigations : List Effect → List String
  | [] => []
  | .navigate p :: effs => p :: navigations effs
  | _ :: effs => navigations effs

/-- The payloads handed to `setProfile` in a trace. -/
def profileWrites : List Effect → List Json
  | [] => []
  | .setProfile d :: effs => d :: profileWrites effs
  | _ :: effs => profileWrites effs

/-- The `localStorage.setItem` calls of a trace: the key and the value whose
`JSON.stringify` text is stored. -/
def storageWrites : List Effect → List (String × Json)
  | [] => []
  | .localStorageSetItem k v :: effs => (k, v) :: storageWrites effs
  | _ :: effs => storageWrites effs

/-- The function `handleChange` (lines 32-38). -/
def handleChange (s : SignInState) (field : Field) (value : String) : SignInState :=
  match field with
  | .email => { s with formData := { s.formData with email := value } }
  | .password => { s with formData := { s.formData with password := value } }
  | .confirmPassword => { s with formData := { s.formData with confirmPassword := value } }

/-- The array `testEmails` (lines 41-45). -/
def testEmails : List String :=
  ["alex.thompson@example.com", "sarah.chen@example.com", "marcus.johnson@example.com"]

/-- The element `xs[k]` of an array for a Number `k`: `undefined` (`none`)
unless `k` is an index of the array. -/
def arrayGet (xs : List String) (k : JSNumber) : Option String :=
  match k.toIndex with
  | some i => xs.get? i
  | none => none

/-- The characters before the first `'@'`: `split('@')[0]`. -/
def beforeAt : List Char → List Char
  | [] => []
  | c :: cs => if c = '@' then [] else c :: beforeAt cs

/-- The call `replace('.', ' ')`: the first full stop becomes a space. -/
def replaceFirstDot : List Char → List Char
  | [] => []
  | c :: cs => if c = '.' then ' ' :: cs else c :: replaceFirstDot cs

/-- The function `loadRandomTestProfile` (lines 40-61) for the value `random`
returned by `Math.random()`. The result is `none` when `randomEmail` is
`undefined`: the call then ends in a TypeError at `randomEmail.split`. -/
def loadRandomTestProfile (random : JSNumber) : Option (List Effect) :=
  match arrayGet testEmails
      (JSNumber.floor (random.mul (JSNumber.ofNat testEmails.length))) with
  | some randomEmail =>
    some [.setFormData { email := randomEmail, password := "test123", confirmPassword := "" },
          .setIsNewAccount false,
          .setEmailVerified true,
          .toast { title := "Test Profile Loaded"
                   description := "Loaded profile for " ++
                     String.mk (replaceFirstDot (beforeAt randomEmail.data))
                   status := "info", duration := 3000, isClosable := true }]
  | none => none

/-- The value of `message || fallback` for the message of a caught error. -/
def messageOr (message fallback : String) : String :=
  if strToBoolean message then message else fallback

/-- The toast of a `catch` block (lines 93-99 and 146-152). -/
def errorToast (description : String) : Toast :=
  { title := "Error", description := description, status := "error", duration := 5000,
    isClosable := true }

/-- What `handleEmailSubmit` does up to the `await` (lines 64-73). -/
def emailSubmitDispatch (API_URL : String) (s : SignInState) : List Effect :=
  [.setIsLoading true,
   .fetch { url := API_URL ++ "/api/check-email", method := "POST"
            headers := [("Content-Type", "application/json")]
            body := .email s.formData.email
            credentials := none, mode := none }]

/-- What `handleEmailSubmit` does after the `await` (lines 75-102). -/
def emailSubmitSettle (result : FetchResult) : List Effect :=
  (match result with
    | .failed message =>
      [.toast (errorToast (messageOr message "Failed to verify email. Please try again."))]
    | .response status _ =>
      if status = 404 then
        [.setIsNewAccount true, .setEmailVerified true,
         .toast { title := "Account Not Found"
                  description := "Would you like to create a new account?"
                  status := "info", duration := 5000, isClosable := true }]
      else if statusOk status then [.setEmailVerified true]
      else [.toast (errorToast
        (messageOr "Failed to verify email" "Failed to verify email. Please try again."))])
  ++ [.setIsLoading false]

/-- The function `handleEmailSubmit` (lines 63-103), for the given outcome of
its request. -/
def handleEmailSubmit (API_URL : String) (s : SignInState) (result : FetchResult) :
    List Effect :=
  emailSubmitDispatch API_URL s ++ emailSubmitSettle result

/-- What `handlePasswordSubmit` does up to the `await` (lines 106-118). -/
def passwordSubmitDispatch (API_URL : String) (s : SignInState) : List Effect :=
  [.setIsLoading true,
   .fetch { url := API_URL ++ "/api/signin", method := "POST"
            headers := [("Content-Type", "application/json"), ("Accept", "application/json")]
            body := .signIn s.formData
            credentials := some "include", mode := some "cors" }]

/-- What `handlePasswordSubmit` does after the `await` (lines 120-155); `s` is
the state of the render the handler was created in, whose `isNewAccount` the
closure reads. -/
def passwordSubmitSettle (s : SignInState) (result : FetchResult) : List Effect :=
  let fallback := "Failed to sign in. Please try again."
  (match result with
    | .failed message => [.toast (errorToast (messageOr message fallback))]
    | .response status body =>
      if !statusOk status then [.toast (errorToast (messageOr "Failed to sign in" fallback))]
      else match body with
        | .error message => [.toast (errorToast (messageOr message fallback))]
        | .ok data =>
          if !data.toBoolean || data.typeof != "object" then
            [.toast (errorToast (messageOr "Invalid response from server" fallback))]
          else
            [.setProfile data,
             .localStorageSetItem "profile" data,
             .navigate (if s.isNewAccount then "/profile" else "/waiting"),
             .toast { title := "Success!"
                      description := if s.isNewAccount then "Account created successfully!"
                        else "Signed in successfully!"
                      status := "success", duration := 3000, isClosable := true }])
  ++ [.setIsLoading false]

/-- The function `handlePasswordSubmit` (lines 105-156), for the given outcome
of its request. -/
def handlePasswordSubmit (API_URL : String) (s : SignInState) (result : FetchResult) :
    List Effect :=
  passwordSubmitDispatch API_URL s ++ passwordSubmitSettle s result

/-- The function `handleBackToEmail` (lines 158-160). -/
def handleBackToEmail (s : SignInState) : SignInState :=
  applyEffects s [.setEmailVerified false]

/-! ### The flow as a transition system -/

/-- A request in flight: the handler that awaits it; for the password handler
with the state of the render the handler was created in. -/
inductive Pending where
  | email
  | password (s : SignInState)
  deriving DecidableEq, Repr

/-- The sign-in flow between two events: the component state and the requests
in flight, oldest first. -/
structure Flow where
  ui : SignInState
  pending : List Pending
  deriving DecidableEq, Repr

/-- The flow after the mount. -/
def Flow.init : Flow := { ui := SignInState.init, pending := [] }

/-- What happens to the flow: an input changes, a button is used, a form is
submitted, or the request at position `i` of those in flight ends. -/
inductive Event where
  | change (field : Field) (value : String)
  | loadTest (random : JSNumber)
  | submitEmail
  | submitPassword
  | back
  | settle (i : Nat) (result : FetchResult)

/-- The handler of an event, run on the flow whether or not the page offers
the event: a submit handler runs up to its `await` and leaves its request in
flight; the end of a request runs the rest of its handler. A
`loadRandomTestProfile` that ends in a TypeError is taken to leave the state
alone. -/
def perform (API_URL : String) (fl : Flow) : Event → Flow
  | .change field value => { fl with ui := handleChange fl.ui field value }
  | .loadTest random =>
    match loadRandomTestProfile random with
    | some effs => { fl with ui := applyEffects fl.ui effs }
    | none => fl
  | .submitEmail =>
    { ui := applyEffects fl.ui (emailSubmitDispatch API_URL fl.ui)
      pending := fl.pending ++ [.email] }
  | .submitPassword =>
    { ui := applyEffects fl.ui (passwordSubmitDispatch API_URL fl.ui)
      pending := fl.pending ++ [.password fl.ui] }
  | .back => { fl with ui := handleBackToEmail fl.ui }
  | .settle i result =>
    match fl.pending.get? i with
    | some .email =>
      { ui := applyEffects fl.ui (emailSubmitSettle result), pending := fl.pending.eraseIdx i }
    | some (.password s) =>
      { ui := applyEffects fl.ui (passwordSubmitSettle s result)
        pending := fl.pending.eraseIdx i }
    | none => fl

/-- The page offers the event in the state `s` (lines 167-249): the email form
is rendered while `emailVerified` is false and the password form otherwise;
the inputs carry `disabled={isLoading}`, the submit buttons
`isLoading={isLoading}` and the test-profile button `isDisabled={isLoading}`,
each of which disables the control, and a form whose submit button is disabled
is not submitted; the edit-email button is never disabled. A request can end at
any time. -/
def offered (s : SignInState) : Event → Bool
  | .change .email _ => !s.emailVerified && !s.isLoading
  | .change .password _ => s.emailVerified && !s.isLoading
  | .change .confirmPassword _ => s.emailVerified && s.isNewAccount && !s.isLoading
  | .loadTest _ => !s.emailVerified && !s.isLoading
  | .submitEmail => !s.emailVerified && !s.isLoading
  | .submitPassword => s.emailVerified && !s.isLoading
  | .back => s.emailVerified
  | .settle _ _ => true

/-- One event on the page: its handler runs when the page offers the event,
and nothing happens otherwise. -/
def dispatchEvent (API_URL : String) (fl : Flow) (ev : Event) : Flow :=
  if offered fl.ui ev then perform API_URL fl ev else fl

/-- The flow after a sequence of events on the page, from the mount. -/
def run (API_URL : String) (evs : List Event) : Flow :=
  evs.foldl (dispatchEvent API_URL) Flow.init

end SignIn

/-! ## The wording of the specification, for comparison with the code -/

/-- The rational number a finite Number stands for. -/
def finValue (neg : Bool) (m : Nat) (e : Int) : ℚ :=
  (if neg then -1 else 1) * (m : ℚ) * (2 : ℚ) ^ e

/-- The Number is a number below the rational `b`. -/
def JSNumber.below (x : JSNumber) (b : ℚ) : Prop :=
  match x with
  | .nan => False
  | .inf neg => neg = true
  | .fin neg m e => finValue neg m e < b

/-- The Number is a number that is at least the rational `b`. -/
def JSNumber.atLeast (x : JSNumber) (b : ℚ) : Prop :=
  match x with
  | .nan => False
  | .inf neg => neg = false
  | .fin neg m e => b ≤ finValue neg m e

namespace ProfileForm

/-- The rule of a field is broken: name, bio and location blank after trim;
gender and lookingFor empty; age empty, not numeric, or below 18. -/
def breaksRule (d : ProfileDraft) : Field → Prop
  | .name => trim d.name = ""
  | .age => d.age = .str "" ∨ d.age.toNumber = .nan ∨ d.age.toNumber.below 18
  | .gender => d.gender = ""
  | .bio => trim d.bio = ""
  | .location => trim d.location = ""
  | .lookingFor => d.lookingFor = ""

/-- The message of each rule. -/
def ruleMessage : Field → String
  | .name => "Name is required"
  | .age => "Valid age is required"
  | .gender => "Gender is required"
  | .bio => "Bio is required"
  | .location => "Location is required"
  | .lookingFor => "Looking for is required"

/-- The object lines 51-57 build, by the outcome of the six tests. -/
def errorsOfTests (bn ba bg bb bl bk : Bool) : ValidationErrors :=
  let e : ValidationErrors := []
  let e := if bn then e.set .name (some "Name is required") else e
  let e := if ba then e.set .age (some "Valid age is required") else e
  let e := if bg then e.set .gender (some "Gender is required") else e
  let e := if bb then e.set .bio (some "Bio is required") else e
  let e := if bl then e.set .location (some "Location is required") else e
  if bk then e.set .lookingFor (some "Looking for is required") else e

/-- The test line 52-57 applies to a field. -/
def fieldTest (d : ProfileDraft) : Field → Bool
  | .name => !strToBoolean (trim d.name)
  | .age => !d.age.toBoolean || d.age.isNaN || d.age.ltNumber (JSNumber.ofNat 18)
  | .gender => !strToBoolean d.gender
  | .bio => !strToBoolean (trim d.bio)
  | .location => !strToBoolean (trim d.location)
  | .lookingFor => !strToBoolean d.lookingFor

/-- All six fields are populated and the age is numeric and at least 18. -/
def populatedAdult (d : ProfileDraft) : Prop :=
  trim d.name ≠ "" ∧ d.gender ≠ "" ∧ trim d.bio ≠ "" ∧ trim d.location ≠ "" ∧
  d.lookingFor ≠ "" ∧
  d.age ≠ .str "" ∧ d.age.toNumber ≠ .nan ∧ d.age.toNumber.atLeast 18

end ProfileForm

namespace SignIn

/-- The value is one of the JSON values that are neither an object nor an
array: `null`, a boolean, a number or a string. -/
def isPrimitive : Json → Bool
  | .arr _ => false
  | .obj _ => false
  | _ => true

/-- The outcome is a failing sign-in in the sense of the specification: a
network error, a non-success status, a malformed body, or a body that is not
a JSON object. -/
def failsStrictly : FetchResult → Bool
  | .failed _ => true
  | .response status body =>
    !statusOk status ||
    match body with
    | .error _ => true
    | .ok data => !data.isObject

/-- The outcome is one the code treats as a failing sign-in: a network error,
a non-success status, a malformed body, or a body that parses to `null`, a
boolean, a number or a string. -/
def failsSignIn : FetchResult → Bool
  | .failed _ => true
  | .response status body =>
    !statusOk status ||
    match body with
    | .error _ => true
    | .ok data => isPrimitive data

/-- The reason of a failing sign-in: the message of the network error or of
the JSON parser, or the message of the error the handler throws itself. -/
def failureReason : FetchResult → String
  | .failed message => message
  | .response status body =>
    if !statusOk status then "Failed to sign in"
    else match body with
      | .error message => message
      | .ok _ => "Invalid response from server"

end SignIn

/-! ## Numbers: the comparison against their rational values -/

theorem magLt_iff (m : Nat) (e : Int) (n : Nat) (f : Int) :
    JSNumber.magLt m e n f = true ↔ (m : ℚ) * (2 : ℚ) ^ e < (n : ℚ) * (2 : ℚ) ^ f := by
  have h2 : (0 : ℚ) < 2 := by norm_num
  unfold JSNumber.magLt
  by_cases h : e ≤ f
  · obtain ⟨k, hk⟩ : ∃ k : ℕ, f - e = k := ⟨(f - e).toNat, by omega⟩
    have hf : f = e + k := by omega
    simp only [h, if_true, decide_eq_true_eq, hk, Int.toNat_ofNat]
    rw [hf, zpow_add₀ (by norm_num : (2 : ℚ) ≠ 0), zpow_natCast]
    have hpos : (0 : ℚ) < (2 : ℚ) ^ e := zpow_pos h2 e
    constructor
    · intro hlt
      have : (m : ℚ) < (n : ℚ) * 2 ^ k := by exact_mod_cast hlt
      nlinarith
    · intro hlt
      have : (m : ℚ) < (n : ℚ) * 2 ^ k := by
        by_contra hc
        push_neg at hc
        nlinarith
      exact_mod_cast this
  · obtain ⟨k, hk⟩ : ∃ k : ℕ, e - f = k := ⟨(e - f).toNat, by omega⟩
    have he : e = f + k := by omega
    simp only [h, if_false, decide_eq_true_eq, hk, Int.toNat_ofNat]
    rw [he, zpow_add₀ (by norm_num : (2 : ℚ) ≠ 0), zpow_natCast]
    have hpos : (0 : ℚ) < (2 : ℚ) ^ f := zpow_pos h2 f
    constructor
    · intro hlt
      have : (m : ℚ) * 2 ^ k < (n : ℚ) := by exact_mod_cast hlt
      nlinarith
    · intro hlt
      have : (m : ℚ) * 2 ^ k < (n : ℚ) := by
        by_contra hc
        push_neg at hc
        nlinarith
      exact_mod_cast this

theorem ofNat_eighteen : JSNumber.ofNat 18 = .fin false 5066549580791808 (-48) := by decide

theorem eighteen_value : finValue false 5066549580791808 (-48) = 18 := by
  unfold finValue
  norm_num [zpow_neg]

theorem lt_eighteen_iff (x : JSNumber) :
    x.lt (JSNumber.ofNat 18) = true ↔ x.below 18 := by
  rw [ofNat_eighteen]
  have hv := eighteen_value
  unfold finValue at hv
  cases x with
  | nan => simp [JSNumber.lt, JSNumber.below]
  | inf neg => cases neg <;> simp [JSNumber.lt, JSNumber.below]
  | fin neg m e =>
    cases neg
    · simp only [JSNumber.lt, JSNumber.below, finValue, magLt_iff]
      simp only [Bool.false_eq_true, if_false, one_mul] at hv ⊢
      rw [hv]
    · simp only [JSNumber.lt, JSNumber.below, finValue]
      have hpos : (0 : ℚ) < (2 : ℚ) ^ e := zpow_pos (by norm_num) e
      have hm : (0 : ℚ) ≤ (m : ℚ) := Nat.cast_nonneg m
      simp only [if_true]
      constructor
      · intro _
        nlinarith [mul_nonneg hm hpos.le]
      · intro _
        simp

theorem atLeast_iff_not_below (x : JSNumber) (b : ℚ) (hx : x ≠ .nan) :
    x.atLeast b ↔ ¬ x.below b := by
  cases x with
  | nan => exact absurd rfl hx
  | inf neg => cases neg <;> simp [JSNumber.atLeast, JSNumber.below]
  | fin neg m e => simp [JSNumber.atLeast, JSNumber.below]

theorem isNaN_iff (x : JSNumber) : x.isNaN = true ↔ x = .nan := by
  cases x <;> simp [JSNumber.isNaN]

theorem strToBoolean_eq_false_iff (s : String) : strToBoolean s = false ↔ s = "" := by
  unfold strToBoolean
  constructor
  · intro h
    have hd : s.data = [] := by simpa using h
    exact String.ext hd
  · intro h
    subst h
    rfl

theorem zero_below_eighteen (neg : Bool) (e : Int) : (JSNumber.fin neg 0 e).below 18 := by
  simp [JSNumber.below, finValue]

/-! ## Numbers: rounding to a double -/

theorem log2Aux_bounds (fuel n : Nat) (hn : 0 < n) (hf : n ≤ fuel) :
    2 ^ log2Aux fuel n ≤ n ∧ n < 2 ^ (log2Aux fuel n + 1) := by
  induction fuel generalizing n with
  | zero => omega
  | succ fuel ih =>
    unfold log2Aux
    by_cases h2 : n < 2
    · simp only [h2, if_true]
      constructor
      · simpa using hn
      · simpa using h2
    · simp only [h2, if_false]
      have hpos : 0 < n / 2 := Nat.div_pos (by omega) (by norm_num)
      have hle : n / 2 ≤ fuel := by omega
      obtain ⟨h1, h3⟩ := ih (n / 2) hpos hle
      rw [pow_succ] at h3 ⊢
      rw [pow_succ]
      constructor <;> omega

theorem log2_bounds (n : Nat) (hn : 0 < n) : 2 ^ log2 n ≤ n ∧ n < 2 ^ (log2 n + 1) :=
  log2Aux_bounds n n hn (le_refl n)

theorem binade_le_one (num den : Nat) (hnum : 0 < num) (hden : 0 < den)
    (hlt : num < 4 * den) : binade num den ≤ 1 := by
  obtain ⟨hn1, _⟩ := log2_bounds num hnum
  obtain ⟨_, hd2⟩ := log2_bounds den hden
  have hl : log2 num < log2 den + 3 := by
    have : 2 ^ log2 num < 2 ^ (log2 den + 3) := by
      calc 2 ^ log2 num ≤ num := hn1
        _ < 4 * den := hlt
        _ < 4 * 2 ^ (log2 den + 1) := by omega
        _ = 2 ^ (log2 den + 3) := by ring
    exact (Nat.pow_lt_pow_iff_right (by norm_num)).1 this
  unfold binade
  simp only
  split_ifs with h0 hc hc
  · by_contra hcon
    have hl2 : (log2 num : Int) - (log2 den : Int) = 2 := by omega
    rw [hl2] at hc
    simp at hc
    omega
  · omega
  · omega
  · omega

/-- Rounding a positive rational that is at most `3 - 3 * 2^-53` gives a
finite Number below three. -/
theorem roundToDouble_lt_three (num den : Nat) (hnum : 0 < num) (hden : 0 < den)
    (hx : num * 2 ^ 53 ≤ 3 * den * (2 ^ 53 - 1)) :
    ∃ q p : Nat, 0 < p ∧ roundToDouble false num den = .fin false q (-(p : Int)) ∧
      q < 3 * 2 ^ p := by
  have hlt3 : num < 3 * den := by
    by_contra hc
    push_neg at hc
    have : 3 * den * 2 ^ 53 ≤ num * 2 ^ 53 := Nat.mul_le_mul_right _ hc
    have h53 : (2 : Nat) ^ 53 = 9007199254740992 := by norm_num
    rw [h53] at this hx
    omega
  have hb := binade_le_one num den hnum hden (by omega)
  obtain ⟨p, hp⟩ : ∃ p : Nat, max (binade num den) (-1022) - 52 = -(p : Int) ∧ 51 ≤ p := by
    refine ⟨(-(max (binade num den) (-1022) - 52)).toNat, ?_, ?_⟩ <;> omega
  refine ⟨if den < 2 * (num * 2 ^ p % den) ∨
      (2 * (num * 2 ^ p % den) = den ∧ num * 2 ^ p / den % 2 = 1)
    then num * 2 ^ p / den + 1 else num * 2 ^ p / den, p, by omega, ?_, ?_⟩
  · unfold roundToDouble
    have hnp : ¬ (0 : Int) ≤ -(p : Int) := by omega
    simp only [Nat.pos_iff_ne_zero.1 hnum, if_false, hp.1, hnp, false_and, neg_neg,
      Int.toNat_ofNat]
  · set P := 2 ^ p with hP
    have hPge : 2 ^ 51 ≤ P := Nat.pow_le_pow_right (by norm_num) hp.2
    have h51 : (2 : Nat) ^ 51 = 2251799813685248 := by norm_num
    have h53 : (2 : Nat) ^ 53 = 9007199254740992 := by norm_num
    rw [h51] at hPge
    rw [h53] at hx
    have hdm := Nat.div_add_mod (num * P) den
    have hr : num * P % den < den := Nat.mod_lt _ hden
    set q := num * P / den with hq
    set r := num * P % den with hrdef
    have hqd : q * den ≤ num * P := by
      have : den * q + r = num * P := hdm
      nlinarith
    have hq3 : q < 3 * P := by
      by_contra hc
      push_neg at hc
      have h1 : 3 * P * den ≤ q * den := Nat.mul_le_mul_right _ hc
      have h2 : num * P < 3 * den * P := Nat.mul_lt_mul_of_pos_right hlt3 (by positivity)
      nlinarith
    split_ifs with hup
    · by_contra hc
      push_neg at hc
      have hq1 : 3 * P ≤ q + 1 := hc
      have h2r : den ≤ 2 * r := by
        rcases hup with h | ⟨h, _⟩ <;> omega
      have hA : (6 * P - 1) * den ≤ 2 * (num * P) := by
        have e1 : 2 * (num * P) = 2 * q * den + 2 * r := by
          have : den * q + r = num * P := hdm
          nlinarith
        have e2 : (6 * P - 1) ≤ 2 * q + 1 := by omega
        calc (6 * P - 1) * den ≤ (2 * q + 1) * den := Nat.mul_le_mul_right _ e2
          _ = 2 * q * den + den := by ring
          _ ≤ 2 * q * den + 2 * r := by omega
          _ = 2 * (num * P) := e1.symm
      have hB : 2 * P * (num * 9007199254740992) ≤ 2 * P * (3 * den * (9007199254740992 - 1)) :=
        Nat.mul_le_mul_left _ hx
      have hC : (6 * P - 1) * den * 9007199254740992 ≤ 2 * (num * P) * 9007199254740992 :=
        Nat.mul_le_mul_right _ hA
      have hD : (6 * P - 1) * 9007199254740992 * den ≤ 6 * P * 9007199254740991 * den := by
        calc (6 * P - 1) * 9007199254740992 * den
            = (6 * P - 1) * den * 9007199254740992 := by ring
          _ ≤ 2 * (num * P) * 9007199254740992 := hC
          _ = 2 * P * (num * 9007199254740992) := by ring
          _ ≤ 2 * P * (3 * den * (9007199254740992 - 1)) := hB
          _ = 6 * P * 9007199254740991 * den := by norm_num; ring
      have hE := Nat.le_of_mul_le_mul_right hD hden
      omega
    · exact hq3

theorem ofNat_three : JSNumber.ofNat 3 = .fin false 6755399441055744 (-51) := by decide

/-- The index `Math.floor(Math.random() * 3)` is 0, 1 or 2 for every double in
the half-open unit interval. -/
theorem floor_random_times_three (r : JSNumber) (hd : r.isDouble = true) (h0 : r.atLeast 0)
    (h1 : r.below 1) :
    ∃ i, i < 3 ∧ (JSNumber.floor (r.mul (JSNumber.ofNat 3))).toIndex = some i := by
  rw [ofNat_three]
  cases r with
  | nan => exact absurd h0 (by simp [JSNumber.atLeast])
  | inf neg => cases neg <;> simp [JSNumber.atLeast, JSNumber.below] at h0 h1
  | fin neg m e =>
    by_cases hm : m = 0
    · subst hm
      refine ⟨0, by norm_num, ?_⟩
      simp only [JSNumber.mul, Nat.zero_mul]
      split_ifs <;> simp [roundToDouble, JSNumber.floor, JSNumber.toIndex]
    · have hmpos : 0 < m := Nat.pos_of_ne_zero hm
      have hpow : (0 : ℚ) < (2 : ℚ) ^ e := zpow_pos (by norm_num) e
      have hmq : (0 : ℚ) < (m : ℚ) := by exact_mod_cast hmpos
      have hneg : neg = false := by
        cases neg
        · rfl
        · exfalso
          simp only [JSNumber.atLeast, finValue, if_true] at h0
          nlinarith [mul_pos hmq hpow]
      subst hneg
      have hlt : JSNumber.magLt m e 1 0 = true := by
        rw [magLt_iff]
        simpa [JSNumber.below, finValue] using h1
      have he : e < 0 := by
        by_contra hc
        push_neg at hc
        unfold JSNumber.magLt at hlt
        rcases eq_or_lt_of_le hc with h | h
        · subst h
          simp at hlt
          omega
        · have : ¬ e ≤ 0 := by omega
          simp only [this, if_false, decide_eq_true_eq] at hlt
          have hp : 0 < 2 ^ (e - 0).toNat := by positivity
          nlinarith
      obtain ⟨f, hf⟩ : ∃ f : Nat, e = -(f : Int) := ⟨(-e).toNat, by omega⟩
      subst hf
      have hmf : m < 2 ^ f := by
        unfold JSNumber.magLt at hlt
        have : -(f : Int) ≤ 0 := by omega
        simpa [this] using hlt
      have hm53 : m < 2 ^ 53 := by
        simp only [JSNumber.isDouble, Bool.and_eq_true, decide_eq_true_eq] at hd
        exact hd.1.1
      have hbranch : ¬ (0 : Int) ≤ -(f : Int) + -51 := by omega
      have hden : (-(-(f : Int) + -51)).toNat = f + 51 := by omega
      simp only [JSNumber.mul, hbranch, if_false, hden, Bool.bne_false]
      have hx : m * 6755399441055744 * 2 ^ 53 ≤ 3 * 2 ^ (f + 51) * (2 ^ 53 - 1) := by
        have key : m * 2 ^ 53 ≤ 2 ^ f * (2 ^ 53 - 1) := by
          rcases Nat.lt_or_ge 53 f with hlt53 | hge53
          · have h1 : m ≤ 2 ^ 53 - 1 := by omega
            have h2 : (2 : Nat) ^ 53 ≤ 2 ^ f := Nat.pow_le_pow_right (by norm_num) hlt53.le
            calc m * 2 ^ 53 ≤ (2 ^ 53 - 1) * 2 ^ 53 := Nat.mul_le_mul_right _ h1
              _ ≤ (2 ^ 53 - 1) * 2 ^ f := Nat.mul_le_mul_left _ h2
              _ = 2 ^ f * (2 ^ 53 - 1) := Nat.mul_comm _ _
          · have h2 : (2 : Nat) ^ f ≤ 2 ^ 53 := Nat.pow_le_pow_right (by norm_num) hge53
            have h3 : m + 1 ≤ 2 ^ f := hmf
            have h53 : (2 : Nat) ^ 53 = 9007199254740992 := by norm_num
            rw [h53] at h2 ⊢
            have h4 : (m + 1) * 9007199254740992 ≤ 2 ^ f * 9007199254740992 :=
              Nat.mul_le_mul_right _ h3
            have h5 : 2 ^ f * (9007199254740992 - 1) = 2 ^ f * 9007199254740992 - 2 ^ f := by
              rw [Nat.mul_sub, Nat.mul_one]
            rw [h5]
            have h6 : (m + 1) * 9007199254740992 = m * 9007199254740992 + 9007199254740992 := by
              ring
            omega
        have h51 : (6755399441055744 : Nat) = 3 * 2 ^ 51 := by norm_num
        calc m * 6755399441055744 * 2 ^ 53 = 3 * 2 ^ 51 * (m * 2 ^ 53) := by rw [h51]; ring
          _ ≤ 3 * 2 ^ 51 * (2 ^ f * (2 ^ 53 - 1)) := Nat.mul_le_mul_left _ key
          _ = 3 * 2 ^ (f + 51) * (2 ^ 53 - 1) := by rw [pow_add]; ring
      obtain ⟨q, p, hp, hround, hq⟩ := roundToDouble_lt_three (m * 6755399441055744)
        (2 ^ (f + 51)) (by positivity) (by positivity) hx
      rw [hround]
      have hnp : ¬ (0 : Int) ≤ -(p : Int) := by omega
      refine ⟨q / 2 ^ p, (Nat.div_lt_iff_lt_mul (by positivity)).2 hq, ?_⟩
      simp [JSNumber.floor, JSNumber.toIndex, hnp]

/-! ## The profile editor -/

namespace ProfileForm

/-- The test of line 53 holds exactly when the age is empty, not numeric, or
below 18. -/
theorem age_test_iff (a : JSValue) :
    (!a.toBoolean || a.isNaN || a.ltNumber (JSNumber.ofNat 18)) = true ↔
      (a = .str "" ∨ a.toNumber = .nan ∨ a.toNumber.below 18) := by
  simp only [Bool.or_eq_true, Bool.not_eq_true', JSValue.isNaN, JSValue.ltNumber,
    isNaN_iff, lt_eighteen_iff]
  constructor
  · rintro ((h | h) | h)
    · cases a with
      | str s =>
        left
        have := (strToBoolean_eq_false_iff s).1 h
        rw [this]
      | num n =>
        cases n with
        | nan => right; left; rfl
        | inf neg => simp [JSValue.toBoolean, JSNumber.toBoolean] at h
        | fin neg m e =>
          have hm : m = 0 := by simpa [JSValue.toBoolean, JSNumber.toBoolean] using h
          subst hm
          right; right
          exact zero_below_eighteen neg e
    · right; left; exact h
    · right; right; exact h
  · rintro (h | h | h)
    · left; left
      subst h
      rfl
    · left; right; exact h
    · right; exact h

theorem validateForm_fst (d : ProfileDraft) :
    (validateForm d).1 = errorsOfTests (fieldTest d .name) (fieldTest d .age)
      (fieldTest d .gender) (fieldTest d .bio) (fieldTest d .location)
      (fieldTest d .lookingFor) := rfl

theorem validateForm_snd (d : ProfileDraft) :
    (validateForm d).2 = ((validateForm d).1.keys.length == 0) := rfl

theorem get_of_tests (bn ba bg bb bl bk : Bool) (f : Field) :
    (errorsOfTests bn ba bg bb bl bk).get f =
      (if (match f with
        | .name => bn | .age => ba | .gender => bg | .bio => bb | .location => bl
        | .lookingFor => bk) then some (ruleMessage f) else none) := by
  cases bn <;> cases ba <;> cases bg <;> cases bb <;> cases bl <;> cases bk <;> cases f <;> rfl

theorem hasKey_of_tests (bn ba bg bb bl bk : Bool) (f : Field) :
    (errorsOfTests bn ba bg bb bl bk).hasKey f =
      (match f with
        | .name => bn | .age => ba | .gender => bg | .bio => bb | .location => bl
        | .lookingFor => bk) := by
  cases bn <;> cases ba <;> cases bg <;> cases bb <;> cases bl <;> cases bk <;> cases f <;> rfl

theorem nil_of_tests (bn ba bg bb bl bk : Bool) :
    errorsOfTests bn ba bg bb bl bk = [] ↔
      (bn = false ∧ ba = false ∧ bg = false ∧ bb = false ∧ bl = false ∧ bk = false) := by
  cases bn <;> cases ba <;> cases bg <;> cases bb <;> cases bl <;> cases bk <;>
    simp [errorsOfTests, ValidationErrors.set]

theorem get_validateForm (d : ProfileDraft) (f : Field) :
    (validateForm d).1.get f = if fieldTest d f then some (ruleMessage f) else none := by
  rw [validateForm_fst, get_of_tests]
  cases f <;> rfl

theorem hasKey_validateForm (d : ProfileDraft) (f : Field) :
    (validateForm d).1.hasKey f = fieldTest d f := by
  rw [validateForm_fst, hasKey_of_tests]
  cases f <;> rfl

theorem fieldTest_iff (d : ProfileDraft) (f : Field) :
    fieldTest d f = true ↔ breaksRule d f := by
  cases f
  · simp only [fieldTest, breaksRule, Bool.not_eq_true', strToBoolean_eq_false_iff]
  · simp only [fieldTest, breaksRule]
    exact age_test_iff d.age
  · simp only [fieldTest, breaksRule, Bool.not_eq_true', strToBoolean_eq_false_iff]
  · simp only [fieldTest, breaksRule, Bool.not_eq_true', strToBoolean_eq_false_iff]
  · simp only [fieldTest, breaksRule, Bool.not_eq_true', strToBoolean_eq_false_iff]
  · simp only [fieldTest, breaksRule, Bool.not_eq_true', strToBoolean_eq_false_iff]

theorem validateForm_nil_iff (d : ProfileDraft) :
    (validateForm d).1 = [] ↔ ∀ f, ¬ breaksRule d f := by
  rw [validateForm_fst, nil_of_tests]
  constructor
  · rintro ⟨h1, h2, h3, h4, h5, h6⟩ f hf
    have := (fieldTest_iff d f).2 hf
    cases f <;> simp_all
  · intro h
    have key : ∀ f, fieldTest d f = false := by
      intro f
      cases hb : fieldTest d f
      · rfl
      · exact absurd ((fieldTest_iff d f).1 hb) (h f)
    exact ⟨key _, key _, key _, key _, key _, key _⟩

theorem populatedAdult_iff (d : ProfileDraft) :
    populatedAdult d ↔ ∀ f, ¬ breaksRule d f := by
  unfold populatedAdult
  constructor
  · rintro ⟨h1, h2, h3, h4, h5, h6, h7, h8⟩ f
    cases f
    · exact h1
    · simp only [breaksRule]
      rintro (h | h | h)
      · exact h6 h
      · exact h7 h
      · exact (atLeast_iff_not_below _ _ h7).1 h8 h
    · exact h2
    · exact h3
    · exact h4
    · exact h5
  · intro h
    have ha := h .age
    simp only [breaksRule, not_or] at ha
    exact ⟨h .name, h .gender, h .bio, h .location, h .lookingFor, ha.1, ha.2.1,
      (atLeast_iff_not_below _ _ ha.2.1).2 ha.2.2⟩

theorem validateForm_true_iff_nil (d : ProfileDraft) :
    (validateForm d).2 = true ↔ (validateForm d).1 = [] := by
  rw [validateForm_snd]
  cases h : (validateForm d).1 <;> simp [ValidationErrors.keys]

/-- C1: for every draft the error object of `validateForm` holds, for each
field, the field's message exactly when the field breaks its rule (name, bio,
location blank after trim; gender, lookingFor empty; age empty, not numeric or
below 18) and has no property for the field otherwise; it is empty, and
`validateForm` returns true, exactly when all six fields are populated and the
age is numeric and at least 18; the ages `"18"` and `18` are accepted; the
draft of the example yields exactly the name error. -/
theorem validateForm_errors_exactly_broken_rules :
    (∀ d f, breaksRule d f →
      (validateForm d).1.get f = some (ruleMessage f) ∧ (validateForm d).1.hasKey f = true) ∧
    (∀ d f, ¬ breaksRule d f →
      (validateForm d).1.get f = none ∧ (validateForm d).1.hasKey f = false) ∧
    (∀ d, ((validateForm d).2 = true ↔ (validateForm d).1 = []) ∧
      ((validateForm d).1 = [] ↔ populatedAdult d)) ∧
    (ruleMessage .name = "Name is required" ∧ ruleMessage .age = "Valid age is required" ∧
      ruleMessage .gender = "Gender is required" ∧ ruleMessage .bio = "Bio is required" ∧
      ruleMessage .location = "Location is required" ∧
      ruleMessage .lookingFor = "Looking for is required") ∧
    (∀ d, (∀ f, f ≠ .age → ¬ breaksRule d f) →
      (d.age = .str "18" ∨ d.age = .num (JSNumber.ofNat 18)) →
      validateForm d = ([], true)) ∧
    validateForm { name := "", age := .str "20", gender := "male", bio := "hi",
                   location := "NY", lookingFor := "dating" }
      = ([(.name, some "Name is required")], false) := by
  refine ⟨?_, ?_, ?_, ⟨rfl, rfl, rfl, rfl, rfl, rfl⟩, ?_, by decide⟩
  · intro d f h
    have ht := (fieldTest_iff d f).2 h
    rw [get_validateForm, hasKey_validateForm, ht]
    exact ⟨rfl, rfl⟩
  · intro d f h
    have ht : fieldTest d f = false := by
      cases hb : fieldTest d f
      · rfl
      · exact absurd ((fieldTest_iff d f).1 hb) h
    rw [get_validateForm, hasKey_validateForm, ht]
    exact ⟨rfl, rfl⟩
  · intro d
    exact ⟨validateForm_true_iff_nil d,
      (validateForm_nil_iff d).trans (populatedAdult_iff d).symm⟩
  · intro d hother hage
    have hagetest : fieldTest d .age = false := by
      rcases hage with h | h <;> simp only [fieldTest, h] <;> decide
    have key : ∀ f, f ≠ .age → fieldTest d f = false := by
      intro f hf
      cases hb : fieldTest d f
      · rfl
      · exact absurd ((fieldTest_iff d f).1 hb) (hother f hf)
    have hnil : (validateForm d).1 = [] := by
      rw [validateForm_fst, nil_of_tests]
      exact ⟨key _ (by decide), hagetest, key _ (by decide), key _ (by decide),
        key _ (by decide), key _ (by decide)⟩
    have hsnd := (validateForm_true_iff_nil d).2 hnil
    exact Prod.ext hnil hsnd

/-! ### `handleChange` -/

theorem get_set_same (o : ValidationErrors) (k : Field) (v : Option String) :
    (o.set k v).get k = v := by
  induction o with
  | nil => simp [ValidationErrors.set, ValidationErrors.get]
  | cons p o ih =>
    by_cases h : p.1 = k
    · simp [ValidationErrors.set, ValidationErrors.get, h]
    · simpa [ValidationErrors.set, ValidationErrors.get, h] using ih

theorem get_set_other (o : ValidationErrors) (k g : Field) (v : Option String) (hg : g ≠ k) :
    (o.set k v).get g = o.get g := by
  induction o with
  | nil => simp [ValidationErrors.set, ValidationErrors.get, Ne.symm hg]
  | cons p o ih =>
    rcases p with ⟨a, b⟩
    by_cases h : a = k
    · subst h
      have hpg : ¬ a = g := fun hp => hg hp.symm
      simp [ValidationErrors.set, ValidationErrors.get, hpg]
    · by_cases hp : a = g
      · subst hp
        simp [ValidationErrors.set, ValidationErrors.get, h]
      · simp only [ValidationErrors.get] at ih
        simp [ValidationErrors.set, ValidationErrors.get, h, hp, ih]

theorem keys_set_of_hasKey (o : ValidationErrors) (k : Field) (v : Option String)
    (hk : o.hasKey k = true) : (o.set k v).keys = o.keys := by
  induction o with
  | nil => simp [ValidationErrors.hasKey] at hk
  | cons p o ih =>
    by_cases h : p.1 = k
    · simp [ValidationErrors.set, ValidationErrors.keys, h]
    · have hk2 : ValidationErrors.hasKey o k = true := by
        simpa [ValidationErrors.hasKey, h] using hk
      have := ih hk2
      simp only [ValidationErrors.keys] at this
      simp [ValidationErrors.set, ValidationErrors.keys, h, this]

theorem hasKey_iff_mem_keys (o : ValidationErrors) (k : Field) :
    o.hasKey k = true ↔ k ∈ o.keys := by
  induction o with
  | nil => simp [ValidationErrors.hasKey, ValidationErrors.keys]
  | cons p o ih =>
    simp only [ValidationErrors.hasKey, ValidationErrors.keys] at ih
    simp only [ValidationErrors.hasKey, ValidationErrors.keys, List.any_cons, List.map_cons,
      List.mem_cons, Bool.or_eq_true, beq_iff_eq, ih]
    constructor
    · rintro (h | h)
      · exact Or.inl h.symm
      · exact Or.inr h
    · rintro (h | h)
      · exact Or.inl h.symm
      · exact Or.inr h

theorem hasKey_of_truthy (o : ValidationErrors) (k : Field) (h : o.truthy k = true) :
    o.hasKey k = true := by
  unfold ValidationErrors.truthy ValidationErrors.get at h
  cases hf : o.find? (fun p => p.1 == k) with
  | none => simp [hf] at h
  | some p =>
    have hmem := List.mem_of_find?_eq_some hf
    have hp := List.find?_some hf
    simp only [ValidationErrors.hasKey, List.any_eq_true]
    exact ⟨p, hmem, hp⟩

theorem draftGet_draftSet_same (d : ProfileDraft) (f : Field) (v : String) :
    draftGet (draftSet d f v) f = .str v := by
  cases f <;> rfl

theorem draftGet_draftSet_other (d : ProfileDraft) (f g : Field) (v : String) (hg : g ≠ f) :
    draftGet (draftSet d f v) g = draftGet d g := by
  cases f <;> cases g <;> first | rfl | exact absurd rfl hg

/-- C5, as stated, fails: editing the field `name` while it has an error
leaves the key `name` in the error object, holding `undefined`; the key is not
removed. -/
theorem handleChange_keeps_the_key :
    ValidationErrors.truthy [(.name, some "Name is required")] .name = true ∧
    (handleChange { formData := emptyDraft, isSubmitting := false,
                    errors := [(.name, some "Name is required")] } .name "Ann").errors
      = [(.name, none)] ∧
    ValidationErrors.hasKey
      (handleChange { formData := emptyDraft, isSubmitting := false,
                      errors := [(.name, some "Name is required")] } .name "Ann").errors
      .name = true := by
  decide

/-- C5, amended: `handleChange` for a field `f` that has an error sets the
entry of `f` to `undefined`, so that `errors[f]` reads as no error while the
key stays in the object and the keys of the object are the same as before; the
entry and the key of every other field are as before. When `f` has no error
the error object is unchanged. In both cases the draft changes in `f` only,
which takes the new value, and the busy flag is untouched. -/
theorem handleChange_clears_only_that_error (s : FormState) (f : Field) (v : String) :
    (s.errors.truthy f = true →
      (handleChange s f v).errors.get f = none ∧
      (handleChange s f v).errors.truthy f = false ∧
      (handleChange s f v).errors.hasKey f = true ∧
      (handleChange s f v).errors.keys = s.errors.keys ∧
      ∀ g, g ≠ f → (handleChange s f v).errors.get g = s.errors.get g ∧
        (handleChange s f v).errors.hasKey g = s.errors.hasKey g) ∧
    (s.errors.truthy f = false → (handleChange s f v).errors = s.errors) ∧
    draftGet (handleChange s f v).formData f = .str v ∧
    (∀ g, g ≠ f → draftGet (handleChange s f v).formData g = draftGet s.formData g) ∧
    (handleChange s f v).isSubmitting = s.isSubmitting := by
  refine ⟨?_, ?_, ?_, ?_, ?_⟩
  · intro h
    have hk := hasKey_of_truthy _ _ h
    have hkeys := keys_set_of_hasKey s.errors f none hk
    simp only [handleChange, h, if_true]
    refine ⟨get_set_same _ _ _, ?_, ?_, hkeys, ?_⟩
    · simp [ValidationErrors.truthy, get_set_same]
    · rw [hasKey_iff_mem_keys, hkeys, ← hasKey_iff_mem_keys]
      exact hk
    · intro g hg
      refine ⟨get_set_other _ _ _ _ hg, ?_⟩
      rw [Bool.eq_iff_iff, hasKey_iff_mem_keys, hasKey_iff_mem_keys, hkeys]
  · intro h
    simp [handleChange, h]
  · unfold handleChange
    split <;> exact draftGet_draftSet_same _ _ _
  · intro g hg
    unfold handleChange
    split <;> exact draftGet_draftSet_other _ _ _ _ hg
  · unfold handleChange
    split <;> rfl

/-! ### `handleSubmit` -/

theorem requests_append (xs ys : List Effect) : requests (xs ++ ys) = requests xs ++ requests ys := by
  induction xs with
  | nil => rfl
  | cons x xs ih => cases x <;> simp [requests, ih]

theorem requests_submitSettle (initialData : Option InitialData) (result : FetchResult) :
    requests (submitSettle initialData result) = [] := by
  unfold submitSettle
  rw [requests_append]
  cases result with
  | failed message => rfl
  | response status body =>
    cases hs : statusOk status
    · simp [hs, requests]
    · cases body <;> simp [hs, requests]

/-- C6: for every draft, mode and outcome of the request, `handleSubmit` emits
exactly one request when the draft passes `validateForm` and none when it
fails, in which case it calls neither `setIsSubmitting` nor `onProfileUpdate`
nor `onClose` and leaves the busy flag as it was. The request is a POST to
`API_URL/api/profiles` without initial data and a PUT to
`API_URL/api/profiles/<id>` with the id of the initial data; its body is the
JSON text of the whole draft and its credentials option is `include`. -/
theorem handleSubmit_one_request_iff_valid (API_URL : String)
    (initialData : Option InitialData) (formData : ProfileDraft) (result : FetchResult) :
    ((validateForm formData).2 = true →
      requests (handleSubmit API_URL initialData formData result)
        = [submitRequest API_URL initialData formData]) ∧
    ((validateForm formData).2 = false →
      requests (handleSubmit API_URL initialData formData result) = [] ∧
      (∀ e ∈ handleSubmit API_URL initialData formData result,
        isSetIsSubmitting e = false ∧ isCallback e = false) ∧
      ∀ s, (applyEffects s (handleSubmit API_URL initialData formData result)).isSubmitting
        = s.isSubmitting) ∧
    (submitRequest API_URL none formData).method = "POST" ∧
    (submitRequest API_URL none formData).url = API_URL ++ "/api/profiles" ∧
    (∀ d, (submitRequest API_URL (some d) formData).method = "PUT" ∧
      (submitRequest API_URL (some d) formData).url = API_URL ++ "/api/profiles/" ++ d.id) ∧
    (submitRequest API_URL initialData formData).body = .profile formData ∧
    (submitRequest API_URL initialData formData).credentials = some "include" := by
  refine ⟨?_, ?_, rfl, rfl, fun d => ⟨rfl, rfl⟩, rfl, rfl⟩
  · intro h
    simp only [handleSubmit, h, Bool.not_true, Bool.false_eq_true, if_false]
    rw [requests_append, requests_submitSettle]
    rfl
  · intro h
    simp only [handleSubmit, h, Bool.not_false, if_true]
    refine ⟨rfl, ?_, fun s => rfl⟩
    intro e he
    simp only [List.mem_singleton] at he
    subst he
    exact ⟨rfl, rfl⟩

/-- After a saved profile `handleSubmit` forwards the parsed payload to
`onProfileUpdate`, then calls `onClose`, then shows one toast of status
`success`; after a network error, a non-success status or a malformed body it
calls neither callback and shows one toast of status `error` that carries the
reason. -/
theorem handleSubmit_outcomes (API_URL : String) (initialData : Option InitialData)
    (formData : ProfileDraft) (hv : (validateForm formData).2 = true) :
    (∀ status data, statusOk status = true →
      (handleSubmit API_URL initialData formData (.response status (.ok data))).filter
          isCallback = [.onProfileUpdate data, .onClose] ∧
      toasts (handleSubmit API_URL initialData formData (.response status (.ok data)))
        = [successToast initialData]) ∧
    (∀ message,
      (handleSubmit API_URL initialData formData (.failed message)).filter isCallback = [] ∧
      toasts (handleSubmit API_URL initialData formData (.failed message))
        = [errorToast message]) ∧
    (∀ status body, statusOk status = false →
      (handleSubmit API_URL initialData formData (.response status body)).filter
          isCallback = [] ∧
      toasts (handleSubmit API_URL initialData formData (.response status body))
        = [errorToast "Failed to save profile"]) ∧
    (∀ status message, statusOk status = true →
      (handleSubmit API_URL initialData formData (.response status (.error message))).filter
          isCallback = [] ∧
      toasts (handleSubmit API_URL initialData formData (.response status (.error message)))
        = [errorToast message]) := by
  refine ⟨?_, ?_, ?_, ?_⟩
  · intro status data hs
    simp [handleSubmit, submitSettle, hv, hs, isCallback, toasts]
  · intro message
    simp [handleSubmit, submitSettle, hv, isCallback, toasts]
  · intro status body hs
    simp [handleSubmit, submitSettle, hv, hs, isCallback, toasts]
  · intro status message hs
    simp [handleSubmit, submitSettle, hv, hs, isCallback, toasts]

/-- The outcomes of `handleSubmit` at a valid draft in create mode. -/
theorem handleSubmit_outcomes_witness :
    toasts (handleSubmit "https://api.example" none
      { name := "Ann", age := .str "30", gender := "female", bio := "hi", location := "NY",
        lookingFor := "dating" } (.failed "Failed to fetch")) = [errorToast "Failed to fetch"] :=
  ((handleSubmit_outcomes "https://api.example" none
    { name := "Ann", age := .str "30", gender := "female", bio := "hi", location := "NY",
      lookingFor := "dating" } (by decide)).2.1 "Failed to fetch").2

/-! ### The effect on `initialData` -/

theorem orEmptyStr_of_truthy (x : String) (h : strToBoolean x = true) :
    orEmptyStr (some x) = x := by
  simp [orEmptyStr, h]

theorem initialDataEffect_some (s : FormState) (d : InitialData) :
    (initialDataEffect s (some d)).formData = populated d := rfl

theorem formData_applyEffects (s : FormState) (effs : List Effect) :
    (applyEffects s effs).formData = s.formData := by
  induction effs generalizing s with
  | nil => rfl
  | cons e effs ih =>
    have : applyEffects s (e :: effs) = applyEffects (applyEffect s e) effs := rfl
    rw [this, ih]
    cases e <;> rfl

theorem editorRun_append (API_URL : String) (prop : InitialDataProp) (evs : List EditorEvent)
    (ev : EditorEvent) :
    editorRun API_URL prop (evs ++ [ev]) = editorStep API_URL (editorRun API_URL prop evs) ev := by
  simp [editorRun, List.foldl_append]

theorem populated_of_truthy (id : String) (draft : ProfileDraft)
    (h1 : strToBoolean draft.name = true) (h2 : draft.age.toBoolean = true)
    (h3 : strToBoolean draft.gender = true) (h4 : strToBoolean draft.bio = true)
    (h5 : strToBoolean draft.location = true) (h6 : strToBoolean draft.lookingFor = true) :
    populated { id := id, name := some draft.name, age := some draft.age,
                gender := some draft.gender, bio := some draft.bio,
                location := some draft.location, lookingFor := some draft.lookingFor }
      = draft := by
  simp only [populated, orEmptyStr_of_truthy _ h1, orEmptyStr_of_truthy _ h3,
    orEmptyStr_of_truthy _ h4, orEmptyStr_of_truthy _ h5, orEmptyStr_of_truthy _ h6,
    orEmptyVal, JSValue.orEmpty, h2, if_true]

/-- C7, as stated, fails: the editor mounted without initial data, opened with
the profile of Ann and then opened without initial data still holds Ann's
draft, not the empty defaults; so does an editor in which a name was typed
before it is opened again without initial data; and an initial age of `0`
reaches the draft as the empty string. -/
theorem opening_without_data_keeps_draft :
    (editorRun "" none
      [.opened (some (1, { id := "7", name := some "Ann", age := some (.str "30"),
                           gender := some "female", bio := some "hi", location := some "NY",
                           lookingFor := some "dating" })),
       .opened none]).form.formData
      = { name := "Ann", age := .str "30", gender := "female", bio := "hi", location := "NY",
          lookingFor := "dating" } ∧
    (editorRun "" none
      [.opened (some (1, { id := "7", name := some "Ann", age := some (.str "30"),
                           gender := some "female", bio := some "hi", location := some "NY",
                           lookingFor := some "dating" })),
       .opened none]).form.formData ≠ emptyDraft ∧
    (editorRun "" none [.opened none, .change .name "Typed", .opened none]).form.formData
      = { name := "Typed", age := .str "", gender := "", bio := "", location := "",
          lookingFor := "" } ∧
    (editorRun "" none
      [.opened (some (1, { id := "7", name := some "Ann", age := some (.num (.fin false 0 0)),
                           gender := some "female", bio := some "hi", location := some "NY",
                           lookingFor := some "dating" }))]).form.formData.age = .str "" ∧
    (editorRun "" none
      [.opened (some (1, { id := "7", name := some "Ann", age := some (.num (.fin false 0 0)),
                           gender := some "female", bio := some "hi", location := some "NY",
                           lookingFor := some "dating" }))]).form.formData.age
      ≠ .num (.fin false 0 0) := by
  decide

/-- C7, amended: for every history of the mounted editor (openings, edits and
submits, in any order), when the editor is mounted with initial data, or is
opened with an initial-data object other than that of the previous render,
each of the six fields of the draft equals that field of the data when the
value is truthy and is the empty string when it is missing or falsy (so the
draft equals the six fields of the data whenever all six are truthy); and when
the editor is mounted without initial data, then as long as every opening
since came without initial data and no field was edited, the draft equals the
empty defaults. -/
theorem opening_populates_or_keeps_defaults (API_URL : String) :
    (∀ (n : Nat) (d : InitialData), (mount (some (n, d))).form.formData = populated d) ∧
    (∀ (prop : InitialDataProp) (evs : List EditorEvent) (n : Nat) (d : InitialData),
      sameObject (editorRun API_URL prop evs).initialData (some (n, d)) = false →
      (editorRun API_URL prop (evs ++ [.opened (some (n, d))])).form.formData = populated d) ∧
    (∀ (id : String) (draft : ProfileDraft),
      strToBoolean draft.name = true → draft.age.toBoolean = true →
      strToBoolean draft.gender = true → strToBoolean draft.bio = true →
      strToBoolean draft.location = true → strToBoolean draft.lookingFor = true →
      populated { id := id, name := some draft.name, age := some draft.age,
                  gender := some draft.gender, bio := some draft.bio,
                  location := some draft.location, lookingFor := some draft.lookingFor }
        = draft) ∧
    (∀ d : InitialData, populated d =
      { name := orEmptyStr d.name, age := orEmptyVal d.age, gender := orEmptyStr d.gender,
        bio := orEmptyStr d.bio, location := orEmptyStr d.location,
        lookingFor := orEmptyStr d.lookingFor }) ∧
    (∀ evs : List EditorEvent, (∀ ev ∈ evs, keepsDraft ev = true) →
      (editorRun API_URL none evs).form.formData = emptyDraft) := by
  refine ⟨fun n d => rfl, ?_, populated_of_truthy, fun d => rfl, ?_⟩
  · intro prop evs n d hne
    rw [editorRun_append]
    simp only [editorStep, hne, Bool.false_eq_true, if_false]
    rfl
  · intro evs
    induction evs using List.reverseRecOn with
    | nil => intro _; rfl
    | append_singleton evs ev ih =>
      intro h
      have hprev := ih (fun e he => h e (by simp [he]))
      have hev : keepsDraft ev = true := h ev (by simp)
      rw [editorRun_append]
      cases ev with
      | opened prop =>
        cases prop with
        | some p => simp [keepsDraft] at hev
        | none =>
          simp only [editorStep]
          split
          · exact hprev
          · exact hprev
      | change f v => simp [keepsDraft] at hev
      | submit result =>
        simp only [editorStep]
        rw [formData_applyEffects]
        exact hprev

end ProfileForm

/-! ## The sign-in flow -/

namespace SignIn

theorem primitive_fails_check (data : Json) (h : isPrimitive data = true) :
    (!data.toBoolean || data.typeof != "object") = true := by
  cases data with
  | null => rfl
  | bool b => simp [Json.typeof]
  | num n => simp [Json.typeof]
  | str s => simp [Json.typeof]
  | arr items => simp [isPrimitive] at h
  | obj members => simp [isPrimitive] at h

theorem object_passes_check (data : Json) (h : data.isObject = true) :
    (!data.toBoolean || data.typeof != "object") = false := by
  cases data with
  | obj members => rfl
  | _ => simp [Json.isObject] at h

/-- C2, the defect: `handleEmailSubmit` on a success status sets
`emailVerified` and leaves `isNewAccount` as it was, for every state; so from
the initial state, an email check answered 404, the edit-email action and a
second check answered 200 end in `EMAIL_VERIFIED` with `isNewAccount = true`.
The 404 and the error outcomes are as the claim says. -/
theorem handleEmailSubmit_found_keeps_isNewAccount :
    (∀ API_URL s status body, statusOk status = true →
      (applyEffects s (handleEmailSubmit API_URL s (.response status body))).emailVerified = true ∧
      (applyEffects s (handleEmailSubmit API_URL s (.response status body))).isNewAccount
        = s.isNewAccount) ∧
    (∀ API_URL s body,
      (applyEffects s (handleEmailSubmit API_URL s (.response 404 body))).emailVerified = true ∧
      (applyEffects s (handleEmailSubmit API_URL s (.response 404 body))).isNewAccount = true) ∧
    (∀ API_URL s status body, status ≠ 404 → statusOk status = false →
      (applyEffects s (handleEmailSubmit API_URL s (.response status body))).emailVerified
        = s.emailVerified ∧
      toasts (handleEmailSubmit API_URL s (.response status body))
        = [errorToast "Failed to verify email"]) ∧
    (∀ API_URL s message,
      (applyEffects s (handleEmailSubmit API_URL s (.failed message))).emailVerified
        = s.emailVerified ∧
      toasts (handleEmailSubmit API_URL s (.failed message))
        = [errorToast (messageOr message "Failed to verify email. Please try again.")]) ∧
    (handleBackToEmail (applyEffects SignInState.init
        (handleEmailSubmit "" SignInState.init (.response 404 (.ok .null))))).emailVerified
      = false ∧
    (applyEffects
      (handleBackToEmail (applyEffects SignInState.init
        (handleEmailSubmit "" SignInState.init (.response 404 (.ok .null)))))
      (handleEmailSubmit ""
        (handleBackToEmail (applyEffects SignInState.init
          (handleEmailSubmit "" SignInState.init (.response 404 (.ok .null)))))
        (.response 200 (.ok .null))))
      = { formData := { email := "", password := "", confirmPassword := "" }
          isNewAccount := true, isLoading := false, emailVerified := true } := by
  refine ⟨?_, ?_, ?_, ?_, rfl, rfl⟩
  · intro API_URL s status body hs
    have h404 : status ≠ 404 := by
      rintro rfl
      simp [statusOk] at hs
    simp [handleEmailSubmit, emailSubmitDispatch, emailSubmitSettle, h404, hs, applyEffects,
      applyEffect]
  · intro API_URL s body
    simp [handleEmailSubmit, emailSubmitDispatch, emailSubmitSettle, applyEffects, applyEffect]
  · intro API_URL s status body h404 hs
    simp [handleEmailSubmit, emailSubmitDispatch, emailSubmitSettle, h404, hs, applyEffects,
      applyEffect, toasts, messageOr, strToBoolean]
  · intro API_URL s message
    simp [handleEmailSubmit, emailSubmitDispatch, emailSubmitSettle, applyEffects,
      applyEffect, toasts]

/-- The trace of a sign-in answered with a success status and a body that
passes the check of line 125. -/
theorem handlePasswordSubmit_success_trace (API_URL : String) (s : SignInState) (status : Nat)
    (data : Json) (hs : statusOk status = true)
    (hd : (!data.toBoolean || data.typeof != "object") = false) :
    handlePasswordSubmit API_URL s (.response status (.ok data)) =
      passwordSubmitDispatch API_URL s ++
      [.setProfile data,
       .localStorageSetItem "profile" data,
       .navigate (if s.isNewAccount then "/profile" else "/waiting"),
       .toast { title := "Success!"
                description := if s.isNewAccount then "Account created successfully!"
                  else "Signed in successfully!"
                status := "success", duration := 3000, isClosable := true },
       .setIsLoading false] := by
  simp only [handlePasswordSubmit, passwordSubmitSettle, hs, hd, Bool.not_true,
    Bool.false_eq_true, if_false, List.cons_append, List.nil_append]

/-- C3: for every session and every sign-in response with a success status
and a JSON object body, `handlePasswordSubmit` hands the payload, unchanged,
to `setProfile` and stores its JSON text under the key `profile`, each exactly
once, and after these two navigates exactly once: to `/profile` when
`isNewAccount` is true and to `/waiting` when it is false. -/
theorem handlePasswordSubmit_stores_then_navigates (API_URL : String) (s : SignInState)
    (status : Nat) (data : Json) (hs : statusOk status = true) (hd : data.isObject = true) :
    profileWrites (handlePasswordSubmit API_URL s (.response status (.ok data))) = [data] ∧
    storageWrites (handlePasswordSubmit API_URL s (.response status (.ok data)))
      = [("profile", data)] ∧
    navigations (handlePasswordSubmit API_URL s (.response status (.ok data)))
      = [if s.isNewAccount then "/profile" else "/waiting"] ∧
    ∃ before after,
      handlePasswordSubmit API_URL s (.response status (.ok data)) =
        before ++ [.setProfile data, .localStorageSetItem "profile" data,
          .navigate (if s.isNewAccount then "/profile" else "/waiting")] ++ after ∧
      navigations before = [] ∧ navigations after = [] := by
  have ht := handlePasswordSubmit_success_trace API_URL s status data hs
    (object_passes_check data hd)
  rw [ht]
  refine ⟨rfl, rfl, rfl, passwordSubmitDispatch API_URL s, _, rfl, rfl, rfl⟩

/-- C3 at a new account answered 200 with the object `{"id": "u1"}`. -/
theorem handlePasswordSubmit_stores_then_navigates_witness :
    navigations (handlePasswordSubmit "https://api.example"
      { formData := { email := "new@x.com", password := "pw", confirmPassword := "pw" }
        isNewAccount := true, isLoading := false, emailVerified := true }
      (.response 200 (.ok (.obj [("id", .str "u1")])))) = ["/profile"] :=
  (handlePasswordSubmit_stores_then_navigates "https://api.example"
    { formData := { email := "new@x.com", password := "pw", confirmPassword := "pw" }
      isNewAccount := true, isLoading := false, emailVerified := true }
    200 (.obj [("id", .str "u1")]) (by decide) rfl).2.2.1

theorem array_passes_check (items : List Json) :
    (!(Json.arr items).toBoolean || (Json.arr items).typeof != "object") = false := rfl

/-- C4, as stated, fails: in the `EMAIL_VERIFIED` session reached from the
mount by entering an email, a check answered 200 and entering a password, the
page offers the password submit; answered with status 200 and the JSON array
`[{}]`, which is not a JSON object, the handler hands the array to
`setProfile`, stores it, navigates to `/waiting` and shows a success toast and
no error toast. -/
theorem handlePasswordSubmit_accepts_array :
    (run "" [.change .email "a@x.com", .submitEmail,
             .settle 0 (.response 200 (.ok .null)), .change .password "pw"]).ui
      = { formData := { email := "a@x.com", password := "pw", confirmPassword := "" }
          isNewAccount := false, isLoading := false, emailVerified := true } ∧
    offered { formData := { email := "a@x.com", password := "pw", confirmPassword := "" }
              isNewAccount := false, isLoading := false, emailVerified := true }
      .submitPassword = true ∧
    failsStrictly (.response 200 (.ok (.arr [.obj []]))) = true ∧
    profileWrites (handlePasswordSubmit ""
      { formData := { email := "a@x.com", password := "pw", confirmPassword := "" }
        isNewAccount := false, isLoading := false, emailVerified := true }
      (.response 200 (.ok (.arr [.obj []])))) = [.arr [.obj []]] ∧
    storageWrites (handlePasswordSubmit ""
      { formData := { email := "a@x.com", password := "pw", confirmPassword := "" }
        isNewAccount := false, isLoading := false, emailVerified := true }
      (.response 200 (.ok (.arr [.obj []])))) = [("profile", .arr [.obj []])] ∧
    navigations (handlePasswordSubmit ""
      { formData := { email := "a@x.com", password := "pw", confirmPassword := "" }
        isNewAccount := false, isLoading := false, emailVerified := true }
      (.response 200 (.ok (.arr [.obj []])))) = ["/waiting"] ∧
    (toasts (handlePasswordSubmit ""
      { formData := { email := "a@x.com", password := "pw", confirmPassword := "" }
        isNewAccount := false, isLoading := false, emailVerified := true }
      (.response 200 (.ok (.arr [.obj []]))))).map (fun t => t.status) = ["success"] :=
  ⟨by decide, by decide, rfl, rfl, rfl, rfl, rfl⟩

/-- The trace of a failing sign-in. -/
theorem handlePasswordSubmit_failure_trace (API_URL : String) (s : SignInState)
    (result : FetchResult) (hf : failsSignIn result = true) :
    handlePasswordSubmit API_URL s result =
      passwordSubmitDispatch API_URL s ++
      [.toast (errorToast (messageOr (failureReason result)
          "Failed to sign in. Please try again.")),
       .setIsLoading false] := by
  cases result with
  | failed message => rfl
  | response status body =>
    cases hs : statusOk status
    · simp [handlePasswordSubmit, passwordSubmitSettle, failureReason, hs]
    · cases body with
      | error message =>
        simp [handlePasswordSubmit, passwordSubmitSettle, failureReason, hs]
      | ok data =>
        have hp : isPrimitive data = true := by simpa [failsSignIn, hs] using hf
        have hc := primitive_fails_check data hp
        simp only [handlePasswordSubmit, passwordSubmitSettle, failureReason, hs, hc,
          Bool.not_true, Bool.false_eq_true, if_false, if_true, List.cons_append,
          List.nil_append]

/-- C4, amended: for every session, in particular every one in
`EMAIL_VERIFIED`, and every failing sign-in outcome, where a failing outcome is
a network error, a non-success status, a malformed body, or a success status
whose body parses to `null`, a boolean, a number or a string, the handler
leaves email, password, confirmPassword, emailVerified and isNewAccount
unchanged, writes nothing to the profile context or to storage, does not
navigate, and emits exactly one toast, of status `error`, whose description is
the failure reason (the fixed fallback text when the reason is empty). A
success status with a JSON array body, whatever its items, passes the check of
line 125 and is handled as a success: the array goes to `setProfile` and to
storage, the handler navigates once and shows one success toast. -/
theorem handlePasswordSubmit_failure_preserves_session (API_URL : String) (s : SignInState) :
    (∀ result : FetchResult, failsSignIn result = true →
      (applyEffects s (handlePasswordSubmit API_URL s result)).formData = s.formData ∧
      (applyEffects s (handlePasswordSubmit API_URL s result)).emailVerified
        = s.emailVerified ∧
      (applyEffects s (handlePasswordSubmit API_URL s result)).isNewAccount
        = s.isNewAccount ∧
      profileWrites (handlePasswordSubmit API_URL s result) = [] ∧
      storageWrites (handlePasswordSubmit API_URL s result) = [] ∧
      navigations (handlePasswordSubmit API_URL s result) = [] ∧
      toasts (handlePasswordSubmit API_URL s result) =
        [{ title := "Error"
           description := if failureReason result = ""
             then "Failed to sign in. Please try again." else failureReason result
           status := "error", duration := 5000, isClosable := true }]) ∧
    (∀ (status : Nat) (items : List Json), statusOk status = true →
      failsSignIn (.response status (.ok (.arr items))) = false ∧
      profileWrites (handlePasswordSubmit API_URL s (.response status (.ok (.arr items))))
        = [.arr items] ∧
      storageWrites (handlePasswordSubmit API_URL s (.response status (.ok (.arr items))))
        = [("profile", .arr items)] ∧
      navigations (handlePasswordSubmit API_URL s (.response status (.ok (.arr items))))
        = [if s.isNewAccount then "/profile" else "/waiting"] ∧
      (toasts (handlePasswordSubmit API_URL s (.response status (.ok (.arr items))))).map
        (fun t => t.status) = ["success"]) := by
  constructor
  · intro result hf
    rw [handlePasswordSubmit_failure_trace API_URL s result hf]
    refine ⟨rfl, rfl, rfl, rfl, rfl, rfl, ?_⟩
    simp only [passwordSubmitDispatch, toasts, List.cons_append, List.nil_append, errorToast,
      messageOr]
    by_cases hr : failureReason result = ""
    · simp [hr, strToBoolean]
    · have : strToBoolean (failureReason result) = true := by
        cases hb : strToBoolean (failureReason result)
        · exact absurd ((strToBoolean_eq_false_iff _).1 hb) hr
        · rfl
      simp [hr, this]
  · intro status items hs
    rw [handlePasswordSubmit_success_trace API_URL s status (.arr items) hs
      (array_passes_check items)]
    refine ⟨?_, rfl, rfl, rfl, rfl⟩
    simp [failsSignIn, hs, isPrimitive]

/-- C4, amended, at a sign-in answered 401 in `EMAIL_VERIFIED`. -/
theorem handlePasswordSubmit_failure_preserves_session_witness :
    failsSignIn (.response 401 (.ok .null)) = true ∧
    navigations (handlePasswordSubmit "https://api.example"
      { formData := { email := "a@x.com", password := "pw", confirmPassword := "" }
        isNewAccount := false, isLoading := false, emailVerified := true }
      (.response 401 (.ok .null))) = [] :=
  ⟨rfl, ((handlePasswordSubmit_failure_preserves_session "https://api.example"
    { formData := { email := "a@x.com", password := "pw", confirmPassword := "" }
      isNewAccount := false, isLoading := false, emailVerified := true }).1
    (.response 401 (.ok .null)) rfl).2.2.2.2.2.1⟩

/-- The edit-email action only clears `emailVerified`: the email and the other
inputs, `isNewAccount` and `isLoading` stay as they were. -/
theorem handleBackToEmail_keeps_the_rest (s : SignInState) :
    (handleBackToEmail s).emailVerified = false ∧
    (handleBackToEmail s).formData = s.formData ∧
    (handleBackToEmail s).isNewAccount = s.isNewAccount ∧
    (handleBackToEmail s).isLoading = s.isLoading :=
  ⟨rfl, rfl, rfl, rfl⟩

/-- The handler `handlePasswordSubmit` sends, for every session and whatever
the outcome, exactly one request: a POST to `API_URL/api/signin` with the
three inputs as body and credentials included. It compares `password` with
`confirmPassword` nowhere, so the request goes out also when they differ. -/
theorem handlePasswordSubmit_sends_the_form_as_is (API_URL : String) (s : SignInState)
    (result : FetchResult) :
    requests (handlePasswordSubmit API_URL s result) =
      [{ url := API_URL ++ "/api/signin", method := "POST"
         headers := [("Content-Type", "application/json"), ("Accept", "application/json")]
         body := .signIn s.formData
         credentials := some "include", mode := some "cors" }] := by
  cases result with
  | failed message => rfl
  | response status body =>
    cases hs : statusOk status
    · simp [handlePasswordSubmit, passwordSubmitDispatch, passwordSubmitSettle, hs, requests]
    · cases body with
      | error message =>
        simp [handlePasswordSubmit, passwordSubmitDispatch, passwordSubmitSettle, hs, requests]
      | ok data =>
        cases hc : (!data.toBoolean || data.typeof != "object") <;>
          simp [handlePasswordSubmit, passwordSubmitDispatch, passwordSubmitSettle, hs, hc,
            requests]

/-! ### The test profile -/

/-- C8: for every state and every random draw `r` that is a double in the
half-open unit interval, the index `Math.floor(r * 3)` is 0, 1 or 2, so
`randomEmail` is one of the three candidates and never `undefined`;
`loadRandomTestProfile` ends with that email, the password `test123`, an empty
confirmPassword, `isNewAccount = false` and `emailVerified = true`, emits
exactly one toast, of status `info`, and issues no request. -/
theorem loadRandomTestProfile_yields_test_account (s : SignInState) (r : JSNumber)
    (hd : r.isDouble = true) (h0 : r.atLeast 0) (h1 : r.below 1) :
    ∃ i email effs, i < 3 ∧
      (JSNumber.floor (r.mul (JSNumber.ofNat testEmails.length))).toIndex = some i ∧
      testEmails.get? i = some email ∧ email ∈ testEmails ∧
      loadRandomTestProfile r = some effs ∧
      applyEffects s effs =
        { formData := { email := email, password := "test123", confirmPassword := "" }
          isNewAccount := false, isLoading := s.isLoading, emailVerified := true } ∧
      (toasts effs).map (fun t => t.status) = ["info"] ∧
      requests effs = [] := by
  obtain ⟨i, hi, hidx⟩ := floor_random_times_three r hd h0 h1
  have hlen : testEmails.length = 3 := rfl
  obtain ⟨email, hemail⟩ : ∃ email, testEmails.get? i = some email := by
    interval_cases i <;> exact ⟨_, rfl⟩
  have hget : arrayGet testEmails
      (JSNumber.floor (r.mul (JSNumber.ofNat testEmails.length))) = some email := by
    rw [hlen]
    simp only [arrayGet, hidx, hemail]
  refine ⟨i, email,
    [.setFormData { email := email, password := "test123", confirmPassword := "" },
     .setIsNewAccount false,
     .setEmailVerified true,
     .toast { title := "Test Profile Loaded"
              description := "Loaded profile for " ++
                String.mk (replaceFirstDot (beforeAt email.data))
              status := "info", duration := 3000, isClosable := true }],
    hi, by rw [hlen]; exact hidx, hemail, List.get?_mem hemail, ?_, rfl, rfl, rfl⟩
  simp only [loadRandomTestProfile, hget]

/-- C8 at the largest double below one, `1 - 2^-53`. -/
theorem loadRandomTestProfile_yields_test_account_witness :
    (JSNumber.fin false (2 ^ 53 - 1) (-53)).isDouble = true ∧
    ∃ i email effs, i < 3 ∧
      (JSNumber.floor ((JSNumber.fin false (2 ^ 53 - 1) (-53)).mul
        (JSNumber.ofNat testEmails.length))).toIndex = some i ∧
      testEmails.get? i = some email ∧ email ∈ testEmails ∧
      loadRandomTestProfile (.fin false (2 ^ 53 - 1) (-53)) = some effs ∧
      applyEffects SignInState.init effs =
        { formData := { email := email, password := "test123", confirmPassword := "" }
          isNewAccount := false, isLoading := SignInState.init.isLoading
          emailVerified := true } ∧
      (toasts effs).map (fun t => t.status) = ["info"] ∧
      requests effs = [] :=
  ⟨by decide,
   loadRandomTestProfile_yields_test_account SignInState.init (.fin false (2 ^ 53 - 1) (-53))
    (by decide)
    (by simp only [JSNumber.atLeast, finValue]; norm_num [zpow_neg])
    (by simp only [JSNumber.below, finValue]; norm_num [zpow_neg])⟩

/-! ### Requests in flight -/

theorem applyEffects_append (s : SignInState) (xs ys : List Effect) :
    applyEffects s (xs ++ ys) = applyEffects (applyEffects s xs) ys := by
  simp [applyEffects, List.foldl_append]

theorem isLoading_after_emailSubmitSettle (s : SignInState) (result : FetchResult) :
    (applyEffects s (emailSubmitSettle result)).isLoading = false := by
  unfold emailSubmitSettle
  rw [applyEffects_append]
  rfl

theorem isLoading_after_passwordSubmitSettle (s c : SignInState) (result : FetchResult) :
    (applyEffects s (passwordSubmitSettle c result)).isLoading = false := by
  unfold passwordSubmitSettle
  rw [applyEffects_append]
  rfl

theorem isLoading_handleChange (s : SignInState) (f : Field) (v : String) :
    (handleChange s f v).isLoading = s.isLoading := by
  cases f <;> rfl

theorem isLoading_loadRandomTestProfile (s : SignInState) (r : JSNumber) (effs : List Effect)
    (h : loadRandomTestProfile r = some effs) :
    (applyEffects s effs).isLoading = s.isLoading := by
  unfold loadRandomTestProfile at h
  split at h
  · cases h
    rfl
  · cases h

/-- The invariant of the page: either nothing is loading and no request is in
flight, or the flag is set and exactly one request is in flight. -/
theorem dispatchEvent_invariant (API_URL : String) (fl : Flow) (ev : Event)
    (h : (fl.ui.isLoading = false ∧ fl.pending = []) ∨
      (fl.ui.isLoading = true ∧ fl.pending.length = 1)) :
    ((dispatchEvent API_URL fl ev).ui.isLoading = false ∧
        (dispatchEvent API_URL fl ev).pending = []) ∨
      ((dispatchEvent API_URL fl ev).ui.isLoading = true ∧
        (dispatchEvent API_URL fl ev).pending.length = 1) := by
  unfold dispatchEvent
  by_cases ho : offered fl.ui ev = true
  swap
  · simpa [ho] using h
  simp only [ho, if_true]
  cases ev with
  | change f v =>
    simpa [perform, isLoading_handleChange] using h
  | loadTest r =>
    simp only [perform]
    cases hl : loadRandomTestProfile r with
    | none => simpa using h
    | some effs => simpa [isLoading_loadRandomTestProfile fl.ui r effs hl] using h
  | submitEmail =>
    have hnl : fl.ui.isLoading = false := by
      simp only [offered, Bool.and_eq_true, Bool.not_eq_true'] at ho
      exact ho.2
    rcases h with ⟨_, hp⟩ | ⟨hl, _⟩
    · right
      simp [perform, hp, emailSubmitDispatch, applyEffects, applyEffect]
    · rw [hnl] at hl
      cases hl
  | submitPassword =>
    have hnl : fl.ui.isLoading = false := by
      simp only [offered, Bool.and_eq_true, Bool.not_eq_true'] at ho
      exact ho.2
    rcases h with ⟨_, hp⟩ | ⟨hl, _⟩
    · right
      simp [perform, hp, passwordSubmitDispatch, applyEffects, applyEffect]
    · rw [hnl] at hl
      cases hl
  | back =>
    simpa [perform, handleBackToEmail, applyEffects, applyEffect] using h
  | settle i result =>
    simp only [perform]
    rcases h with ⟨hl, hp⟩ | ⟨hl, hp⟩
    · left
      simp [hp, hl]
    · obtain ⟨p, hp1⟩ : ∃ p, fl.pending = [p] := List.length_eq_one.1 hp
      cases i with
      | zero =>
        left
        cases p with
        | email => simp [hp1, isLoading_after_emailSubmitSettle]
        | password c => simp [hp1, isLoading_after_passwordSubmitSettle]
      | succ j =>
        right
        simp [hp1, hl]

theorem run_invariant (API_URL : String) (evs : List Event) :
    ((run API_URL evs).ui.isLoading = false ∧ (run API_URL evs).pending = []) ∨
      ((run API_URL evs).ui.isLoading = true ∧ (run API_URL evs).pending.length = 1) := by
  induction evs using List.reverseRecOn with
  | nil => exact Or.inl ⟨rfl, rfl⟩
  | append_singleton evs ev ih =>
    have : run API_URL (evs ++ [ev]) = dispatchEvent API_URL (run API_URL evs) ev := by
      simp [run, List.foldl_append]
    rw [this]
    exact dispatchEvent_invariant API_URL _ ev ih

/-- The submit handlers themselves do not test `isLoading`: run directly on
the state in which one `handleEmailSubmit` has set the flag and left its
request in flight, either handler dispatches a request of its own. It is the
page that keeps the handlers from running then. -/
theorem submit_handlers_ignore_isLoading :
    (perform "" Flow.init .submitEmail).ui.isLoading = true ∧
    (perform "" Flow.init .submitEmail).pending.length = 1 ∧
    (requests (emailSubmitDispatch "" (perform "" Flow.init .submitEmail).ui)).length = 1 ∧
    (requests (passwordSubmitDispatch "" (perform "" Flow.init .submitEmail).ui)).length = 1 ∧
    (perform "" (perform "" Flow.init .submitEmail) .submitEmail).pending.length = 2 ∧
    (perform "" (perform "" Flow.init .submitEmail) .submitPassword).pending.length = 2 := by
  decide

/-- C9: in every reachable state of the sign-in flow, that is after every
sequence of events on the page from the mount, at most one request is in
flight, and one is in flight exactly when `isLoading` is true; while
`isLoading` is true a submit action, of the email form or of the password
form, starts no handler and dispatches no further request (the submit buttons
are rendered with `isLoading={isLoading}`). -/
theorem at_most_one_request_in_flight (API_URL : String) (evs : List Event) :
    (run API_URL evs).pending.length ≤ 1 ∧
    ((run API_URL evs).ui.isLoading = true ↔ (run API_URL evs).pending.length = 1) ∧
    ((run API_URL evs).ui.isLoading = true →
      run API_URL (evs ++ [.submitEmail]) = run API_URL evs ∧
      run API_URL (evs ++ [.submitPassword]) = run API_URL evs) := by
  have hinv := run_invariant API_URL evs
  refine ⟨?_, ?_, ?_⟩
  · rcases hinv with ⟨_, hp⟩ | ⟨_, hp⟩
    · simp [hp]
    · omega
  · rcases hinv with ⟨hl, hp⟩ | ⟨hl, hp⟩
    · simp [hl, hp]
    · simp [hl, hp]
  · intro hl
    have hrun : ∀ ev, run API_URL (evs ++ [ev]) = dispatchEvent API_URL (run API_URL evs) ev := by
      intro ev
      simp [run, List.foldl_append]
    constructor
    · rw [hrun]
      simp [dispatchEvent, offered, hl]
    · rw [hrun]
      simp [dispatchEvent, offered, hl]

end SignIn

/-! ## The flags set around a request -/

theorem ProfileForm.formEffects_append (s : ProfileForm.FormState)
    (xs ys : List ProfileForm.Effect) :
    ProfileForm.applyEffects s (xs ++ ys)
      = ProfileForm.applyEffects (ProfileForm.applyEffects s xs) ys := by
  simp [ProfileForm.applyEffects, List.foldl_append]

/-- C10: for every outcome of the request, the flag a handler sets before the
dispatch is false when the handler completes: each of `handleEmailSubmit` and
`handlePasswordSubmit` starts with `setIsLoading(true)` followed by its
`fetch` and ends in a state with `isLoading = false`; `handleSubmit` on a
draft that passes validation calls `setIsSubmitting(true)` before its `fetch`
and ends in a state with `isSubmitting = false`. -/
theorem busy_flags_cleared_for_every_outcome (API_URL : String) (result : FetchResult) :
    (∀ s : SignIn.SignInState,
      (SignIn.applyEffects s (SignIn.handleEmailSubmit API_URL s result)).isLoading = false ∧
      ∃ req rest, SignIn.handleEmailSubmit API_URL s result
        = .setIsLoading true :: .fetch req :: rest ∧ SignIn.requests rest = []) ∧
    (∀ s : SignIn.SignInState,
      (SignIn.applyEffects s (SignIn.handlePasswordSubmit API_URL s result)).isLoading = false ∧
      ∃ req rest, SignIn.handlePasswordSubmit API_URL s result
        = .setIsLoading true :: .fetch req :: rest ∧ SignIn.requests rest = []) ∧
    (∀ (s : ProfileForm.FormState) (initialData : Option ProfileForm.InitialData)
        (formData : ProfileDraft),
      (ProfileForm.validateForm formData).2 = true →
      (ProfileForm.applyEffects s
        (ProfileForm.handleSubmit API_URL initialData formData result)).isSubmitting = false ∧
      ∃ errs req rest, ProfileForm.handleSubmit API_URL initialData formData result
        = .setErrors errs :: .setIsSubmitting true :: .fetch req :: rest ∧
        ProfileForm.requests rest = []) := by
  refine ⟨?_, ?_, ?_⟩
  · intro s
    constructor
    · unfold SignIn.handleEmailSubmit SignIn.emailSubmitSettle
      rw [← List.append_assoc, SignIn.applyEffects_append]
      rfl
    · refine ⟨_, SignIn.emailSubmitSettle result, rfl, ?_⟩
      cases result with
      | failed message => rfl
      | response status body =>
        unfold SignIn.emailSubmitSettle
        by_cases h404 : status = 404
        · simp [h404, SignIn.requests]
        · cases hs : statusOk status <;> simp [h404, hs, SignIn.requests]
  · intro s
    constructor
    · unfold SignIn.handlePasswordSubmit SignIn.passwordSubmitSettle
      rw [← List.append_assoc, SignIn.applyEffects_append]
      rfl
    · refine ⟨_, SignIn.passwordSubmitSettle s result, rfl, ?_⟩
      cases result with
      | failed message => rfl
      | response status body =>
        unfold SignIn.passwordSubmitSettle
        cases hs : statusOk status
        · simp [hs, SignIn.requests]
        · cases body with
          | error message => simp [hs, SignIn.requests]
          | ok data =>
            cases hc : (!data.toBoolean || data.typeof != "object") <;>
              simp [hs, hc, SignIn.requests]
  · intro s initialData formData hv
    constructor
    · simp only [ProfileForm.handleSubmit, hv, Bool.not_true, Bool.false_eq_true, if_false]
      unfold ProfileForm.submitSettle
      rw [← List.append_assoc, ProfileForm.formEffects_append]
      rfl
    · refine ⟨(ProfileForm.validateForm formData).1,
        ProfileForm.submitRequest API_URL initialData formData,
        ProfileForm.submitSettle initialData result, ?_,
        ProfileForm.requests_submitSettle initialData result⟩
      simp only [ProfileForm.handleSubmit, hv, Bool.not_true, Bool.false_eq_true, if_false,
        List.cons_append, List.nil_append]

/-- C10 at a valid draft in create mode whose request fails in the network. -/
theorem busy_flags_cleared_for_every_outcome_witness :
    (ProfileForm.applyEffects { formData := ProfileForm.emptyDraft, isSubmitting := true,
                                errors := [] }
      (ProfileForm.handleSubmit "https://api.example" none
        { name := "Ann", age := .str "30", gender := "female", bio := "hi", location := "NY",
          lookingFor := "dating" } (.failed "Failed to fetch"))).isSubmitting = false :=
  ((busy_flags_cleared_for_every_outcome "https://api.example" (.failed "Failed to fetch")).2.2
    { formData := ProfileForm.emptyDraft, isSubmitting := true, errors := [] } none
    { name := "Ann", age := .str "30", gender := "female", bio := "hi", location := "NY",
      lookingFor := "dating" } (by decide)).1

end DatingApp
